import Mathlib

/-!
Session-aware API client of the Ben Tech dashboard (`src/interface/app.js`)

A shallow embedding of the session helpers (`isUserLoggedIn`, `checkSession`), the API
wrapper (`callAPI`) and `logoutUser`, and of the page functions built on them: the log
(`addLog`, `loadSystemLogs`, `clearLocalLogs`), the result boxes (`showResult`), the status
cards (`updateSystemStatus`), the content table (`updateContentTable`), publication
(`publishContent`), the periodic refresh callback, the chat (`sendChatMessage`,
`displayBotResponse`, `generateBotResponse`) and the content summary of `generateContent`.

Modelling decisions.

* The browser state the code touches is a `World`: the `localStorage` map, the value last
  assigned to `window.location.href`, and a trace of the calls made to `fetch` and to the
  body readers of a `Response`.  `console.log` / `console.error` have no effect on this
  state and are left out.
* Everything the code obtains from the host (the network behind `fetch`, `JSON.parse`,
  `JSON.stringify`, the conversion of numbers, the errors raised by the host) is a field of
  a `Platform`; the theorems hold for every platform.
* An `async` function is a function from the world in which it starts to the world in
  which its promise settles, together with the settlement (`Settled`).  One invocation is
  run without other callbacks interleaved at its `await` points.
* A `Response` body can be read once: `json()` and `text()` consume it, and a second read
  of a non-null body is rejected with a `TypeError` (Fetch standard, "consume body").
* The DOM is a record of the elements the script looks up (`Dom`).  Markup assigned to
  `innerHTML` or appended with `insertAdjacentHTML` is kept as the exact text the script
  builds.  Local time and the value of `Math.floor(Math.random() * 4)` are arguments of the
  functions that read them.  Calls made without `await` and timers are recorded as
  `Pending` work of the page instead of being run inside the function that starts them.
* Assumed of the host: `localStorage` is available (its methods do not throw), assigning
  `window.location.href` does not throw, and the built-in prototypes are unmodified.  The
  `data` argument of `callAPI` ranges over JSON values, which is what its callers pass.
-/

namespace AgentIA

/-! ## JavaScript values -/

/-- A thrown JavaScript error object: its `name` and its `message`. -/
structure JsError where
  name : String
  message : String
deriving DecidableEq, Repr

/-- How a promise settles: resolved with a value or rejected with an error. -/
inductive Settled (α : Type) where
  | resolved (v : α)
  | rejected (e : JsError)
deriving DecidableEq, Repr

/-- The values `JSON.parse` can produce.  `ν` is the carrier of JavaScript numbers.  The
fields of an object are listed in property enumeration order, each key once. -/
inductive Json (ν : Type) where
  | null
  | bool (b : Bool)
  | num (n : ν)
  | str (s : String)
  | arr (xs : List (Json ν))
  | obj (kvs : List (String × Json ν))

/-- A request as handed to `fetch(endpoint, options)`. -/
structure Request where
  url : String
  method : String
  headers : List (String × String)
  body : Option String
deriving DecidableEq, Repr

/-- The part of a `Response` the code looks at: the status and the body (`none` is the
null body of the Fetch standard). -/
structure Response where
  status : Nat
  body : Option String
deriving DecidableEq, Repr

/-- The getter `response.ok`: the status is in the range 200 to 299. -/
def Response.ok (r : Response) : Bool :=
  decide (200 ≤ r.status) && decide (r.status ≤ 299)

/-- What the host provides to the script. -/
structure Platform (ν : Type) where
  /-- The network behind `fetch`: a response, or the error `fetch` rejects with. -/
  fetch : Request → Except JsError Response
  /-- The function `JSON.parse`; `none` stands for a thrown `SyntaxError`. -/
  jsonParse : String → Option (Json ν)
  /-- The function `JSON.stringify` on JSON values. -/
  jsonStringify : Json ν → String
  /-- The abstract operation `ToBoolean` on numbers. -/
  numberToBoolean : ν → Bool
  /-- The abstract operation `Number::toString`. -/
  numberToString : ν → String
  /-- The `SyntaxError` thrown by `JSON.parse` on a text. -/
  syntaxError : String → JsError
  /-- The `TypeError` of the named body reader called on a body that was already read. -/
  bodyUsedError : String → JsError
  /-- The `TypeError` of reading a property of `null`. -/
  nullAccessError : JsError
  /-- The `TypeError` of converting an object to a primitive when no method applies. -/
  toPrimitiveError : JsError

/-! ## Browser state -/

/-- The `localStorage` map: keys and values are strings. -/
abbrev Storage := List (String × String)

/-- The method `localStorage.getItem(key)`; `none` is `null`. -/
def getItem (st : Storage) (key : String) : Option String :=
  st.lookup key

/-- The method `localStorage.removeItem(key)`. -/
def removeItem (st : Storage) (key : String) : Storage :=
  st.filter (fun kv => !(kv.1 == key))

/-- Calls observable from outside the script. -/
inductive Event where
  | fetch (req : Request)
  | readJson
  | readText
deriving DecidableEq, Repr

/-- The browser state. -/
structure World where
  storage : Storage
  href : String
  trace : List Event
deriving DecidableEq, Repr

/-- Appends an event to the trace. -/
def World.emit (w : World) (ev : Event) : World :=
  { w with trace := w.trace ++ [ev] }

/-- Number of `fetch` calls recorded in a trace. -/
def fetchCount (tr : List Event) : Nat :=
  (tr.filter (fun ev => match ev with | .fetch _ => true | _ => false)).length

/-- Number of body reads (`json()` or `text()`) recorded in a trace. -/
def bodyReadCount (tr : List Event) : Nat :=
  (tr.filter (fun ev => match ev with | .fetch _ => false | _ => true)).length

/-! ## Conversions -/

/-- The operation `ToBoolean` on a value that is a string or `null`. -/
def strTruthy : Option String → Bool
  | none => false
  | some s => !(s == "")

mutual
/-- The operation `ToString` on a JSON value, as applied by `new Error(message)`.  An
object converts through `Object.prototype.toString`, unless an own `toString` property
(never callable in parsed JSON) hides it, in which case the conversion throws. -/
def Json.toJsString {ν : Type} (P : Platform ν) : Json ν → Except JsError String
  | .null => .ok "null"
  | .bool b => .ok (if b then "true" else "false")
  | .num n => .ok (P.numberToString n)
  | .str s => .ok s
  | .arr xs => Json.joinComma P xs
  | .obj kvs =>
    if (kvs.map Prod.fst).contains "toString" then .error P.toPrimitiveError
    else .ok "[object Object]"
termination_by structural x => x
/-- The method `Array.prototype.join` with the default separator: `null` elements give the
empty string. -/
def Json.joinComma {ν : Type} (P : Platform ν) : List (Json ν) → Except JsError String
  | [] => .ok ""
  | x :: rest =>
    match (match x with
      | .null => (Except.ok "" : Except JsError String)
      | y => Json.toJsString P y) with
    | .error e => .error e
    | .ok s =>
      match rest with
      | [] => .ok s
      | _ :: _ =>
        match Json.joinComma P rest with
        | .error e => .error e
        | .ok t => .ok (s ++ "," ++ t)
termination_by structural x => x
end

/-- The operation `ToBoolean` on a JSON value. -/
def Json.truthy {ν : Type} (P : Platform ν) : Json ν → Bool
  | .null => false
  | .bool b => b
  | .num n => P.numberToBoolean n
  | .str s => !(s == "")
  | .arr _ => true
  | .obj _ => true

/-- The property read `value.message`: `none` is `undefined`.  Reading a property of `null`
throws; a primitive or an array has no `message` property. -/
def Json.getMessage {ν : Type} (P : Platform ν) : Json ν → Except JsError (Option (Json ν))
  | .null => .error P.nullAccessError
  | .obj kvs => .ok (kvs.lookup "message")
  | _ => .ok none

/-- The value thrown by `throw new Error(message)` for a message that is not `undefined`:
the message is converted with `ToString`; when the conversion throws, its error is the one
thrown. -/
def newError {ν : Type} (P : Platform ν) (message : Json ν) : JsError :=
  match Json.toJsString P message with
  | .ok s => ⟨"Error", s⟩
  | .error e => e

/-! ## Reading a response body -/

/-- The "consume body" step shared by `json()` and `text()`, for the reader named
`reader`: the text read and the new value of `bodyUsed`.  A null body reads as the empty
text and is never marked used. -/
def Response.consume {ν : Type} (P : Platform ν) (reader : String) (r : Response)
    (used : Bool) : Except JsError String × Bool :=
  match r.body with
  | none => (.ok "", used)
  | some b => if used then (.error (P.bodyUsedError reader), true) else (.ok b, true)

/-- The method `response.json()`. -/
def Response.json {ν : Type} (P : Platform ν) (r : Response) (used : Bool) :
    Except JsError (Json ν) × Bool :=
  match Response.consume P "json" r used with
  | (.error e, u) => (.error e, u)
  | (.ok b, u) =>
    match P.jsonParse b with
    | some v => (.ok v, u)
    | none => (.error (P.syntaxError b), u)

/-- The method `response.text()`. -/
def Response.text {ν : Type} (P : Platform ν) (r : Response) (used : Bool) :
    Except JsError String × Bool :=
  Response.consume P "text" r used

/-! ## Session helpers (`app.js` lines 8-22) -/

/-- The function `isUserLoggedIn`: the value of `token && user`. -/
def isUserLoggedIn (st : Storage) : Option String :=
  let token := getItem st "auth_token"
  let user := getItem st "user"
  if strTruthy token then user else token

/-- The function `checkSession`: redirects to `/` and returns `false` when
`isUserLoggedIn()` is falsy. -/
def checkSession (w : World) : World × Bool :=
  if !strTruthy (isUserLoggedIn w.storage) then
    ({ w with href := "/" }, false)
  else
    (w, true)

/-! ## The API wrapper (`app.js` lines 25-73) -/

/-- Lines 57-65 of `callAPI`: the failure raised for a non-success status other than 401.
The inner `try` reads the body as JSON and takes `errorData.message || errorMessage`; its
`catch` reads the body as text.  Whatever is thrown reaches the outer `catch`, which
rethrows it. -/
def httpFailure {ν : Type} (P : Platform ν) (w : World) (response : Response) :
    World × Settled (Json ν) :=
  let errorMessage : Json ν := .str ("Erreur HTTP: " ++ toString response.status)
  let w1 := w.emit .readJson
  let read := Response.json P response false
  let tried : Except JsError (Json ν) :=
    match read.1 with
    | .error e => .error e
    | .ok errorData =>
      match Json.getMessage P errorData with
      | .error e => .error e
      | .ok none => .ok errorMessage
      | .ok (some m) => .ok (if Json.truthy P m then m else errorMessage)
  match tried with
  | .ok message => (w1, .rejected (newError P message))
  | .error _ =>
    let w2 := w1.emit .readText
    match (Response.text P response read.2).1 with
    | .ok t => (w2, .rejected (newError P (.str t)))
    | .error e => (w2, .rejected e)

/-- Lines 32-43 of `callAPI`: the `options` object handed to `fetch`, with the endpoint.
The `Authorization` header is `token || ''`; the body is set under `if (data)`. -/
def requestOptions {ν : Type} (P : Platform ν) (st : Storage) (endpoint method : String)
    (data : Json ν) : Request :=
  let token := getItem st "auth_token"
  { url := endpoint
    method := method
    headers := [("Content-Type", "application/json"),
                ("Authorization", if strTruthy token then token.getD "" else "")]
    body := if Json.truthy P data then some (P.jsonStringify data) else none }

/-- The function `callAPI(endpoint, method, data)`; `data = null` is the default of the
parameter. -/
def callAPI {ν : Type} (P : Platform ν) (w : World) (endpoint method : String)
    (data : Json ν) : World × Settled (Json ν) :=
  match checkSession w with
  | (w1, false) => (w1, .resolved .null)
  | (w1, true) =>
    let options := requestOptions P w1.storage endpoint method data
    let w2 := w1.emit (.fetch options)
    match P.fetch options with
    | .error e => (w2, .rejected e)
    | .ok response =>
      if !response.ok then
        if response.status = 401 then
          ({ w2 with
              storage := removeItem (removeItem w2.storage "auth_token") "user"
              href := "/" },
            .resolved .null)
        else
          httpFailure P w2 response
      else
        let w3 := w2.emit .readJson
        match (Response.json P response false).1 with
        | .ok v => (w3, .resolved v)
        | .error e => (w3, .rejected e)

/-! ## Logout (`app.js` lines 927-942) -/

/-- The function `logoutUser`: both branches of the `try` clear the session and go to
`/`. -/
def logoutUser {ν : Type} (P : Platform ν) (w : World) : World × Settled Unit :=
  match callAPI P w "/api/logout" "POST" .null with
  | (w1, .resolved _) =>
    ({ w1 with
        storage := removeItem (removeItem w1.storage "auth_token") "user"
        href := "/" },
      .resolved ())
  | (w1, .rejected _) =>
    ({ w1 with
        storage := removeItem (removeItem w1.storage "auth_token") "user"
        href := "/" },
      .resolved ())

/-! ## A sample platform

Used to run the model on concrete inputs.  Its numbers are the non-negative integers below
`2^53`, which JavaScript prints in decimal. -/

/-- Numbers of the sample platform. -/
abbrev SampleNumber := Fin 9007199254740992

/-- Lower-case hexadecimal digit. -/
def hexDigit (n : Nat) : Char :=
  if n < 10 then Char.ofNat (48 + n) else Char.ofNat (87 + n)

/-- The escape of one character inside a JSON string literal (`QuoteJSONString`). -/
def escapeChar (c : Char) : String :=
  if c.toNat = 34 then "\\\""
  else if c.toNat = 92 then "\\\\"
  else if c.toNat = 8 then "\\b"
  else if c.toNat = 9 then "\\t"
  else if c.toNat = 10 then "\\n"
  else if c.toNat = 12 then "\\f"
  else if c.toNat = 13 then "\\r"
  else if c.toNat < 32 then
    "\\u00" ++ String.mk [hexDigit (c.toNat / 16), hexDigit (c.toNat % 16)]
  else String.mk [c]

/-- A string as a JSON string literal. -/
def quoteJson (s : String) : String :=
  "\"" ++ String.join (s.data.map escapeChar) ++ "\""

mutual
/-- The function `JSON.stringify(value)` without indentation, on the sample numbers. -/
def sampleStringify : Json SampleNumber → String
  | .null => "null"
  | .bool b => if b then "true" else "false"
  | .num n => toString n.val
  | .str s => quoteJson s
  | .arr xs => "[" ++ sampleStringifyItems xs ++ "]"
  | .obj kvs => "\x7b" ++ sampleStringifyFields kvs ++ "\x7d"
termination_by structural x => x
/-- The elements of an array, separated by commas. -/
def sampleStringifyItems : List (Json SampleNumber) → String
  | [] => ""
  | x :: rest =>
    match rest with
    | [] => sampleStringify x
    | _ :: _ => sampleStringify x ++ "," ++ sampleStringifyItems rest
termination_by structural x => x
/-- The fields of an object, separated by commas. -/
def sampleStringifyFields : List (String × Json SampleNumber) → String
  | [] => ""
  | kv :: rest =>
    match rest with
    | [] => quoteJson kv.1 ++ ":" ++ sampleStringify kv.2
    | _ :: _ => quoteJson kv.1 ++ ":" ++ sampleStringify kv.2 ++ "," ++ sampleStringifyFields rest
termination_by structural x => x
end

/-- The status payload of `/api/status`. -/
def sampleStatus : Json SampleNumber :=
  .obj [("service", .str "Agent IA Marketing"), ("status", .str "online"),
        ("auto_mode", .bool true), ("version", .str "1.0")]

/-- The JSON values the sample server sends. -/
def sampleCorpus : List (Json SampleNumber) :=
  [ sampleStatus,
    .obj [],
    .obj [("message", .str "Quota atteint")],
    .obj [("detail", .str "Not Found")],
    .obj [("message", .str "")],
    .obj [("message", .obj [("code", .num 7)])],
    .null ]

/-- The parser of the sample platform: the inverse of `sampleStringify` on the corpus.
Every other text is refused; no text used in the examples is JSON outside the corpus. -/
def sampleParse (text : String) : Option (Json SampleNumber) :=
  sampleCorpus.find? (fun v => sampleStringify v == text)

/-- A response carrying a JSON value. -/
def jsonResponse (status : Nat) (v : Json SampleNumber) : Response :=
  { status := status, body := some (sampleStringify v) }

/-- The sample network, keyed by the URL of the request. -/
def sampleNet (req : Request) : Except JsError Response :=
  if req.url = "/api/status" then .ok (jsonResponse 200 sampleStatus)
  else if req.url = "/api/logout" then .ok (jsonResponse 200 (.obj []))
  else if req.url = "/api/config" then .ok { status := 401, body := some "Unauthorized" }
  else if req.url = "/api/publish" then
    .ok { status := 500, body := some "Internal Server Error" }
  else if req.url = "/api/stats" then
    .ok (jsonResponse 429 (.obj [("message", .str "Quota atteint")]))
  else if req.url = "/api/logs" then
    .ok (jsonResponse 404 (.obj [("detail", .str "Not Found")]))
  else if req.url = "/api/chat/analyze" then
    .ok (jsonResponse 422 (.obj [("message", .obj [("code", .num 7)])]))
  else .error ⟨"TypeError", "Failed to fetch"⟩

/-- The sample platform over a given network. -/
def samplePlatform (net : Request → Except JsError Response) : Platform SampleNumber :=
  { fetch := net
    jsonParse := sampleParse
    jsonStringify := sampleStringify
    numberToBoolean := fun n => decide (n.val ≠ 0)
    numberToString := fun n => toString n.val
    syntaxError := fun _ => ⟨"SyntaxError", "JSON.parse: unexpected character"⟩
    bodyUsedError := fun reader => ⟨"TypeError", "Response." ++ reader ++ ": Body has already been consumed."⟩
    nullAccessError := ⟨"TypeError", "Cannot read properties of null (reading 'message')"⟩
    toPrimitiveError := ⟨"TypeError", "Cannot convert object to primitive value"⟩ }

/-- A world with an active session, on the dashboard page. -/
def loggedIn : World :=
  { storage := [("auth_token", "Bearer abc123"), ("user", "alice"), ("theme", "dark")]
    href := "/dashboard"
    trace := [] }

/-- A world without a session. -/
def loggedOut : World :=
  { storage := [("theme", "dark")], href := "/dashboard", trace := [] }

/-! ## The page: host operations, clock and DOM

The functions below work on the DOM of the dashboard page.  The page markup is not part of
the script, so the DOM is a record of the elements the script looks up, each optional
(`none`: `getElementById` returns `null`).  The container `realtimeLogs` is kept as the
list of its child nodes: the elements, which `children` counts, and the other nodes (the
white space of the page markup, comments), which `firstChild` and `lastChild` also see. -/

/-- The white space and line terminators removed by `String.prototype.trim`. -/
def isJsWhiteSpace (c : Char) : Bool :=
  let n := c.toNat
  n == 9 || n == 10 || n == 11 || n == 12 || n == 13 || n == 32 || n == 160 ||
  n == 5760 || (decide (8192 ≤ n) && decide (n ≤ 8202)) || n == 8232 || n == 8233 ||
  n == 8239 || n == 8287 || n == 12288 || n == 65279

/-- The method `String.prototype.trim`. -/
def jsTrim (s : String) : String :=
  String.mk ((((s.data.dropWhile isJsWhiteSpace).reverse).dropWhile isJsWhiteSpace).reverse)

/-- The host operations used by the page functions, on top of those of `Platform`. -/
structure Host (ν : Type) extends Platform ν where
  /-- The method `String.prototype.toLowerCase`. -/
  toLowerCase : String → String
  /-- White space has no case: a string of white space is its own lower case. -/
  toLowerCase_blank : ∀ s : String,
    (∀ c ∈ s.data, isJsWhiteSpace c = true) → toLowerCase s = s
  /-- The call `JSON.stringify(value, null, 2)`. -/
  jsonStringifyIndented : Json ν → String
  /-- The comparison `value > 0`, which converts its left operand to a number and can
  throw while doing so. -/
  greaterThanZero : Json ν → Except JsError Bool
  /-- The `TypeError` of calling a value that is not a function. -/
  notCallableError : JsError

/-- The local time read from `new Date()`. -/
structure Clock where
  hours : Nat
  minutes : Nat
  seconds : Nat
deriving DecidableEq, Repr

/-- The expression `n.toString().padStart(2, '0')`. -/
def pad2 (n : Nat) : String :=
  if (toString n).length < 2 then "0" ++ toString n else toString n

/-- The property read `value.key` for a key that no built-in prototype defines: `none` is
`undefined`.  Reading a property of `null` throws. -/
def Json.get {ν : Type} (P : Platform ν) (v : Json ν) (key : String) :
    Except JsError (Option (Json ν)) :=
  match v with
  | .null => .error P.nullAccessError
  | .obj kvs => .ok (kvs.lookup key)
  | _ => .ok none

/-- The operation `ToBoolean` on a value that may be `undefined`. -/
def optTruthy {ν : Type} (P : Platform ν) : Option (Json ν) → Bool
  | none => false
  | some v => Json.truthy P v

/-- The test `value === text` for a string literal `text`. -/
def isString {ν : Type} (v : Option (Json ν)) (text : String) : Bool :=
  match v with
  | some (.str s) => s == text
  | _ => false

/-- An element child of the `realtimeLogs` container: a `div.log-item` filled through
`innerHTML` (by `addLog`) or through `textContent` (by `loadSystemLogs`). -/
inductive LogItem where
  | html (content : String)
  | text (content : String)
deriving DecidableEq, Repr

/-- A child node of the `realtimeLogs` container: an element, or a node that is not an
element (a text node, a comment). -/
inductive LogNode where
  | element (item : LogItem)
  | textNode (content : String)
deriving DecidableEq, Repr

/-- The value of `container.children.length`: the number of child nodes that are
elements. -/
def elementCount (nodes : List LogNode) : Nat :=
  (nodes.filter (fun node => match node with | .element _ => true | .textNode _ => false)).length

/-- An element written by `showResult`.  The field `text` is the `textContent` of the node
`element.querySelector('.result-value') || element`; `shown` is the presence of the class
`show`. -/
structure ResultBox where
  text : String
  background : String
  borderColor : String
  shown : Bool
deriving DecidableEq, Repr

/-- A button: its `textContent`, the presence of the class `loading`, and `disabled`. -/
structure Button where
  text : String
  loading : Bool
  disabled : Bool
deriving DecidableEq, Repr

/-- The elements of the page the script looks up. -/
structure Dom where
  /-- The result boxes by `id` (`actionResult`, `generateResult`, `publishResult`). -/
  results : List (String × ResultBox)
  /-- The child nodes of `#realtimeLogs`, first child first. -/
  realtimeLogs : Option (List LogNode)
  /-- The `.stat-card` elements in document order, each with the `innerHTML` of its first
  `.stat-value` descendant (`none`: the card has no such descendant). -/
  statCards : List (Option String)
  /-- The `innerHTML` of `#contentTable`. -/
  contentTable : Option String
  /-- The fragments appended to `#chatMessages`, oldest first. -/
  chatMessages : Option (List String)
  /-- The `value` of `#chatInput`. -/
  chatInput : Option String
  publishContentBtn : Option Button
  publishNowBtn : Option Button
deriving DecidableEq, Repr

/-- Work the script has started and not waited for. -/
inductive Pending where
  /-- An `async` function called without `await`. -/
  | started (fn : String)
  /-- The call `setTimeout(() => generateBotResponse(message), delay)`. -/
  | fallbackReply (delay : Nat) (message : String)
deriving DecidableEq, Repr

/-- The state of the page: browser state, DOM, and the work left pending. -/
structure Page where
  world : World
  dom : Dom
  pending : List Pending
deriving DecidableEq, Repr

/-! ## Result boxes and the log (`app.js` lines 177-234, 659-666) -/

/-- The function `showResult(elementId, message, isError)`. -/
def showResult {ν : Type} (H : Host ν) (dom : Dom) (elementId : String) (message : Json ν)
    (isError : Bool) : Dom :=
  match dom.results.lookup elementId with
  | none => dom
  | some _ =>
    let text : String :=
      match message with
      | .null => H.jsonStringifyIndented message
      | .arr _ => H.jsonStringifyIndented message
      | .obj _ => H.jsonStringifyIndented message
      | .str s => s
      | .bool b => if b then "true" else "false"
      | .num n => H.numberToString n
    let box : ResultBox :=
      { text := text
        background :=
          if isError then "rgba(231, 76, 60, 0.1)" else "rgba(46, 204, 113, 0.1)"
        borderColor :=
          if isError then "rgba(231, 76, 60, 0.3)" else "rgba(46, 204, 113, 0.3)"
        shown := true }
    { dom with
        results := dom.results.map
          (fun kv => if kv.1 == elementId then (kv.1, box) else kv) }

/-- The icon chosen by `addLog` for a log type. -/
def logIcon (type : String) : String :=
  let icon0 := "✓"
  let icon1 := if type = "error" then "✗" else icon0
  let icon2 := if type = "warning" then "⚠" else icon1
  if type = "action" then "⚡" else icon2

/-- The `div.log-item` created by `addLog`, at local time `now`. -/
def logEntry (now : Clock) (message type : String) : LogItem :=
  let time := pad2 now.hours ++ ":" ++ pad2 now.minutes ++ ":" ++ pad2 now.seconds
  .html (logIcon type ++ " [" ++ time ++ "] " ++ message)

/-- The function `addLog(message, type)`, at local time `now`: the new item is inserted
before `firstChild`; then, if `children.length` (the number of element children) exceeds
50, `lastChild` (the last child node, element or not) is removed. -/
def addLog (dom : Dom) (now : Clock) (message type : String) : Dom :=
  match dom.realtimeLogs with
  | none => dom
  | some nodes =>
    let inserted := LogNode.element (logEntry now message type) :: nodes
    { dom with
        realtimeLogs :=
          some (if elementCount inserted > 50 then inserted.dropLast else inserted) }

/-- The function `clearLocalLogs`. -/
def clearLocalLogs (dom : Dom) (now : Clock) : Dom :=
  match dom.realtimeLogs with
  | none => dom
  | some _ =>
    addLog { dom with realtimeLogs := some [] } now "Journaux locaux effacés" "warning"

/-! ## Status cards (`app.js` lines 299-337) -/

/-- The markup written into a `.stat-value`: a dot of the given class and a label. -/
def statusIndicator (dotClass label : String) : String :=
  "\n                <span class=\"status-indicator\">" ++
  "\n                    <span class=\"status-dot " ++ dotClass ++ "\"></span>" ++
  "\n                    " ++ label ++
  "\n                </span>\n            "

/-- The guarded assignment `if (value) { value.innerHTML = html }` for the `.stat-value` of
card `i`; the markup is computed only when the card has one. -/
def writeCard (cards : List (Option String)) (i : Nat) (html : Unit → Except JsError String) :
    Except JsError (List (Option String)) :=
  match cards.get? i with
  | some (some _) =>
    match html () with
    | .ok markup => .ok (cards.set i (some markup))
    | .error e => .error e
  | _ => .ok cards

/-- The markup of the first card, from `statusData.status`. -/
def statusMarkup {ν : Type} (P : Platform ν) (statusData : Json ν) : Except JsError String :=
  match Json.get P statusData "status" with
  | .error e => .error e
  | .ok status =>
    .ok (statusIndicator
      (if isString status "online" then "status-online" else "status-warning")
      (if isString status "online" then "En ligne" else "Hors ligne"))

/-- The markup of the second card, from `statusData.auto_mode`. -/
def autoModeMarkup {ν : Type} (P : Platform ν) (statusData : Json ν) :
    Except JsError String :=
  match Json.get P statusData "auto_mode" with
  | .error e => .error e
  | .ok autoMode =>
    .ok (statusIndicator
      (if optTruthy P autoMode then "status-active" else "status-warning")
      (if optTruthy P autoMode then "Activé" else "Désactivé"))

/-- The function `updateSystemStatus(statusData)`.  It can throw only by reading a
property of `null`, which happens before any card is written. -/
def updateSystemStatus {ν : Type} (P : Platform ν) (dom : Dom) (statusData : Json ν) :
    Except JsError Dom :=
  if dom.statCards.length ≥ 3 then
    match writeCard dom.statCards 0 (fun _ => statusMarkup P statusData) with
    | .error e => .error e
    | .ok cards1 =>
      match writeCard cards1 1 (fun _ => autoModeMarkup P statusData) with
      | .error e => .error e
      | .ok cards2 =>
        match writeCard cards2 2
          (fun _ => .ok (statusIndicator "status-online" "/generate, /api/publish")) with
        | .error e => .error e
        | .ok cards3 => .ok { dom with statCards := cards3 }
  else
    .ok dom

/-! ## System logs (`app.js` lines 621-644) -/

/-- The loop `reversedLogs.forEach(...)`: each string is trimmed and appended as a
`div.log-item`; `log.trim()` throws on the first element that is not a string, which ends
the loop with the items appended so far. -/
def appendSystemLogs {ν : Type} (container : List LogNode) : List (Json ν) → List LogNode
  | [] => container
  | .str s :: rest => appendSystemLogs (container ++ [.element (.text (jsTrim s))]) rest
  | _ :: _ => container

/-- The spread `[...result.logs]` of a truthy value: an array gives its elements, a string
its characters, anything else is not iterable (`none`). -/
def spreadLogs {ν : Type} (logs : Json ν) : Option (List (Json ν)) :=
  match logs with
  | .arr xs => some xs
  | .str s => some (s.data.map (fun c => Json.str (String.mk [c])))
  | _ => none

/-- The function `loadSystemLogs`.  Its `catch` swallows every error, so its promise always
resolves; only the page is returned. -/
def loadSystemLogs {ν : Type} (H : Host ν) (pg : Page) : Page :=
  match callAPI H.toPlatform pg.world "/api/logs" "GET" .null with
  | (w, .rejected _) => { pg with world := w }
  | (w, .resolved result) =>
    if Json.truthy H.toPlatform result then
      match Json.get H.toPlatform result "logs" with
      | .error _ => { pg with world := w }
      | .ok logs =>
        if optTruthy H.toPlatform logs then
          match pg.dom.realtimeLogs with
          | none => { pg with world := w }
          | some _ =>
            match spreadLogs (logs.getD .null) with
            | none => { pg with world := w, dom := { pg.dom with realtimeLogs := some [] } }
            | some items =>
              { pg with
                  world := w
                  dom := { pg.dom with
                    realtimeLogs := some (appendSystemLogs [] items.reverse) } }
        else { pg with world := w }
    else { pg with world := w }

/-! ## Content table (`app.js` lines 474-526) -/

/-- The interpolation of `value || fallback` in a template literal: the string conversion
of the value when it is truthy, the fallback text otherwise. -/
def orDefault {ν : Type} (P : Platform ν) (value : Option (Json ν)) (fallback : String) :
    Except JsError String :=
  match value with
  | none => .ok fallback
  | some v => if Json.truthy P v then Json.toJsString P v else .ok fallback

/-- The markup of one table row (`app.js` lines 486-504), from the values of its
interpolations. -/
def contentRow (index : Nat) (titre date : String) (published : Bool) : String :=
  "\n" ++
  "                <tr>\n" ++
  "                    <td>" ++
  (toString (index + 1)) ++
  "</td>\n" ++
  "                    <td>" ++
  titre ++
  "</td>\n" ++
  "                    <td>" ++
  date ++
  "</td>\n" ++
  "                    <td>\n" ++
  "                        <span class=\"status-indicator\">\n" ++
  "                            <span class=\"status-dot " ++
  (if published then "status-online" else "status-warning") ++
  "\"></span>\n" ++
  "                            " ++
  (if published then "Publié" else "En attente") ++
  "\n" ++
  "                        </span>\n" ++
  "                    </td>\n" ++
  "                    <td>\n" ++
  "                        <button class=\"btn-secondary\" style=\"padding: " ++
  "6px 12px; font-size: 12px;\" \n" ++
  "                                onclick=\"publishSingleItem(" ++
  (toString index) ++
  ")\">\n" ++
  "                            Publier\n" ++
  "                        </button>\n" ++
  "                    </td>\n" ++
  "                </tr>\n" ++
  "            "

/-- The markup shown when there is no content (`app.js` lines 507-513). -/
def emptyTableMarkup : String :=
  "\n" ++
  "                <tr>\n" ++
  "                    <td colspan=\"5\" style=\"text-align: center; padding" ++
  ": 40px; color: rgba(255,255,255,0.5);\">\n" ++
  "                        Aucun contenu disponible\n" ++
  "                    </td>\n" ++
  "                </tr>\n" ++
  "            "

/-- The markup shown when loading failed (`app.js` lines 518-524). -/
def errorTableMarkup : String :=
  "\n" ++
  "            <tr>\n" ++
  "                <td colspan=\"5\" style=\"text-align: center; padding: 40" ++
  "px; color: rgba(255,255,255,0.5);\">\n" ++
  "                    Erreur lors du chargement\n" ++
  "                </td>\n" ++
  "            </tr>\n" ++
  "        "

/-- One call of the arrow function given to `result.data.map`. -/
def renderRow {ν : Type} (P : Platform ν) (index : Nat) (item : Json ν) :
    Except JsError String :=
  match Json.get P item "titre" with
  | .error e => .error e
  | .ok titreValue =>
    match orDefault P titreValue "Sans titre" with
    | .error e => .error e
    | .ok titre =>
      match Json.get P item "date" with
      | .error e => .error e
      | .ok dateValue =>
        match orDefault P dateValue "Non spécifié" with
        | .error e => .error e
        | .ok date =>
          match Json.get P item "publication_effective" with
          | .error e => .error e
          | .ok published => .ok (contentRow index titre date (isString published "oui"))

/-- The expression `result.data.map(...).join('')`, from row number `index` on. -/
def renderRows {ν : Type} (P : Platform ν) (index : Nat) : List (Json ν) →
    Except JsError String
  | [] => .ok ""
  | item :: rest =>
    match renderRow P index item with
    | .error e => .error e
    | .ok row =>
      match renderRows P (index + 1) rest with
      | .error e => .error e
      | .ok rows => .ok (row ++ rows)

/-- The body of the `try` of `updateContentTable` after the call: the markup assigned to
the table, or the error thrown before the assignment. -/
def tableMarkup {ν : Type} (H : Host ν) (result : Json ν) : Except JsError String :=
  if Json.truthy H.toPlatform result then
    match Json.get H.toPlatform result "data" with
    | .error e => .error e
    | .ok none => .ok emptyTableMarkup
    | .ok (some data) =>
      if Json.truthy H.toPlatform data then
        match data with
        | .arr items =>
          if items.length > 0 then renderRows H.toPlatform 0 items else .ok emptyTableMarkup
        | .str _ => .error H.notCallableError
        | .obj kvs =>
          match kvs.lookup "length" with
          | none => .ok emptyTableMarkup
          | some len =>
            match H.greaterThanZero len with
            | .error e => .error e
            | .ok true => .error H.notCallableError
            | .ok false => .ok emptyTableMarkup
        | _ => .ok emptyTableMarkup
      else .ok emptyTableMarkup
  else .ok emptyTableMarkup

/-- The function `updateContentTable`.  Its promise always resolves. -/
def updateContentTable {ν : Type} (H : Host ν) (pg : Page) : Page :=
  match pg.dom.contentTable with
  | none => pg
  | some _ =>
    match callAPI H.toPlatform pg.world "/api/data/recent?limit=20" "GET" .null with
    | (w, .rejected _) =>
      { pg with world := w, dom := { pg.dom with contentTable := some errorTableMarkup } }
    | (w, .resolved result) =>
      match tableMarkup H result with
      | .error _ =>
        { pg with world := w, dom := { pg.dom with contentTable := some errorTableMarkup } }
      | .ok markup =>
        { pg with world := w, dom := { pg.dom with contentTable := some markup } }

/-! ## Publication (`app.js` lines 431-469) -/

/-- The button found by
`getElementById('publishContentBtn') || getElementById('publishNowBtn')`. -/
def publishButton (dom : Dom) : Option Button :=
  match dom.publishContentBtn with
  | some b => some b
  | none => dom.publishNowBtn

/-- Writes the button found by `publishButton`. -/
def setPublishButton (dom : Dom) (b : Button) : Dom :=
  match dom.publishContentBtn with
  | some _ => { dom with publishContentBtn := some b }
  | none =>
    match dom.publishNowBtn with
    | some _ => { dom with publishNowBtn := some b }
    | none => dom

/-- The `catch` block of `publishContent`, at local time `now`. -/
def publishFailed {ν : Type} (H : Host ν) (dom : Dom) (now : Clock) (error : JsError) : Dom :=
  let dom1 := showResult H dom "publishResult" (.str ("❌ Erreur: " ++ error.message)) true
  let dom2 := showResult H dom1 "actionResult"
    (.str ("❌ Échec publication: " ++ error.message)) true
  addLog dom2 now ("Erreur publication: " ++ error.message) "error"

/-- The statements of `publishContent` under `if (result)`, at local time `now`: the DOM
reached and, when an interpolation threw, the error. -/
def publishSucceeded {ν : Type} (H : Host ν) (dom : Dom) (now : Clock) (result : Json ν) :
    Dom × Option JsError :=
  match Json.get H.toPlatform result "message" with
  | .error e => (dom, some e)
  | .ok message =>
    match Json.get H.toPlatform result "published_count" with
    | .error e => (dom, some e)
    | .ok count =>
      let dom1 := showResult H dom "publishResult" (.str (H.jsonStringifyIndented result))
        false
      match orDefault H.toPlatform message "Publication effectuée" with
      | .error e => (dom1, some e)
      | .ok messageText =>
        match orDefault H.toPlatform count "0" with
        | .error e => (dom1, some e)
        | .ok countText =>
          let dom2 := showResult H dom1 "actionResult"
            (.str ("✅ " ++ messageText ++ " (" ++ countText ++ " publications)")) false
          (addLog dom2 now (countText ++ " contenus publiés") "info", none)

/-- The function `publishContent`; `start` and `later` are the local times before and
after the call.  Its promise always resolves.  The calls `updateContentTable()` and
`updateRecentData()` it makes without `await` are recorded as pending. -/
def publishContent {ν : Type} (H : Host ν) (pg : Page) (start later : Clock) : Page :=
  match publishButton pg.dom with
  | none => pg
  | some btn =>
    let originalText := btn.text
    let dom0 := setPublishButton pg.dom { btn with loading := true, disabled := true }
    let dom1 := addLog dom0 start "Démarrage de la publication..." "action"
    let restore (dom : Dom) : Dom :=
      setPublishButton dom { text := originalText, loading := false, disabled := false }
    match callAPI H.toPlatform pg.world "/api/publish" "POST" .null with
    | (w, .rejected e) =>
      { pg with world := w, dom := restore (publishFailed H dom1 later e) }
    | (w, .resolved result) =>
      if Json.truthy H.toPlatform result then
        match publishSucceeded H dom1 later result with
        | (dom2, some e) =>
          { pg with world := w, dom := restore (publishFailed H dom2 later e) }
        | (dom2, none) =>
          { world := w
            dom := restore dom2
            pending := pg.pending ++
              [.started "updateContentTable", .started "updateRecentData"] }
      else
        { pg with world := w, dom := restore dom1 }

/-! ## Periodic refresh (`app.js` lines 1000-1022) -/

/-- The period of `setInterval`, in milliseconds. -/
def refreshPeriod : Nat := 30000

/-- The array `activities` of the refresh callback. -/
def activities : List String :=
  [ "Vérification système en cours",
    "Analyse des performances en temps réel",
    "Synchronisation avec le module IA Python",
    "Vérification des contenus en attente" ]

/-- The callback given to `setInterval`, run at local time `now`; `pick` is the value of
`Math.floor(Math.random() * activities.length)`.  The `catch` swallows every error. -/
def periodicRefresh {ν : Type} (H : Host ν) (pg : Page) (now : Clock) (pick : Fin 4) : Page :=
  match callAPI H.toPlatform pg.world "/api/status" "GET" .null with
  | (w, .rejected _) => { pg with world := w }
  | (w, .resolved status) =>
    if Json.truthy H.toPlatform status then
      match updateSystemStatus H.toPlatform pg.dom status with
      | .error _ => { pg with world := w }
      | .ok dom1 =>
        { pg with world := w, dom := addLog dom1 now (activities.getD pick.val "") "info" }
    else
      { pg with world := w, dom := addLog pg.dom now (activities.getD pick.val "") "info" }

/-- The fragment built by `addUserMessage` (`app.js` lines 736-748). -/
def userMessageMarkup (text time : String) : String :=
  "\n" ++
  "        <div class=\"message user\">\n" ++
  "            <div class=\"message-avatar\">\n" ++
  "                <svg width=\"20\" height=\"20\" viewBox=\"0 0 24 24\" fill=\"" ++
  "#3498db\">\n" ++
  "                    <path d=\"M12 2C6.48 2 2 6.48 2 12s4.48 10 10 10 10" ++
  "-4.48 10-10S17.52 2 12 2zm0 3c1.66 0 3 1.34 3 3s-1.34 3-3 3-3-1.34-3-3" ++
  " 1.34-3 3-3zm0 14.2c-2.5 0-4.71-1.28-6-3.22.03-1.99 4-3.08 6-3.08 1.99" ++
  " 0 5.97 1.09 6 3.08-1.29 1.94-3.5 3.22-6 3.22z\"/>\n" ++
  "                </svg>\n" ++
  "            </div>\n" ++
  "            <div class=\"message-content\">\n" ++
  "                <div class=\"message-text\">" ++
  text ++
  "</div>\n" ++
  "                <div class=\"message-time\">" ++
  time ++
  "</div>\n" ++
  "            </div>\n" ++
  "        </div>\n" ++
  "    "

/-- The fragment built by `displayBotResponse` for a response with an analysis
(`app.js` lines 768-786); `recommendations` is the value of the second interpolation. -/
def analysisMarkup (analysis recommendations time : String) : String :=
  "\n" ++
  "            <div class=\"message bot\">\n" ++
  "                <div class=\"message-avatar\">\n" ++
  "                    <svg width=\"20\" height=\"20\" viewBox=\"0 0 24 24\" fi" ++
  "ll=\"#3498db\">\n" ++
  "                        <path d=\"M12 12c2.21 0 4-1.79 4-4s-1.79-4-4-4-" ++
  "4 1.79-4 4 1.79 4 4 4zm0 2c-2.67 0-8 1.34-8 4v2h16v-2c0-2.66-5.33-4-8-" ++
  "4z\"/>\n" ++
  "                    </svg>\n" ++
  "                </div>\n" ++
  "                <div class=\"message-content\">\n" ++
  "                    <div class=\"message-text\">\n" ++
  "                        <strong>🔍 Analyse IA:</strong><br>\n" ++
  "                        " ++
  analysis ++
  "\n" ++
  "                        \n" ++
  "                        " ++
  recommendations ++
  "\n" ++
  "                    </div>\n" ++
  "                    <div class=\"message-time\">" ++
  time ++
  "</div>\n" ++
  "                </div>\n" ++
  "            </div>\n" ++
  "        "

/-- The fragment built by `displayBotResponse` for a response without analysis
(`app.js` lines 788-802). -/
def plainResponseMarkup (text time : String) : String :=
  "\n" ++
  "            <div class=\"message bot\">\n" ++
  "                <div class=\"message-avatar\">\n" ++
  "                    <svg width=\"20\" height=\"20\" viewBox=\"0 0 24 24\" fi" ++
  "ll=\"#3498db\">\n" ++
  "                        <path d=\"M12 12c2.21 0 4-1.79 4-4s-1.79-4-4-4-" ++
  "4 1.79-4 4 1.79 4 4 4zm0 2c-2.67 0-8 1.34-8 4v2h16v-2c0-2.66-5.33-4-8-" ++
  "4z\"/>\n" ++
  "                    </svg>\n" ++
  "                </div>\n" ++
  "                <div class=\"message-content\">\n" ++
  "                    <div class=\"message-text\">\n" ++
  "                        " ++
  text ++
  "\n" ++
  "                    </div>\n" ++
  "                    <div class=\"message-time\">" ++
  time ++
  "</div>\n" ++
  "                </div>\n" ++
  "            </div>\n" ++
  "        "

/-- The fragment built by `generateBotResponse` (`app.js` lines 843-855). -/
def botMessageMarkup (response time : String) : String :=
  "\n" ++
  "        <div class=\"message bot\">\n" ++
  "            <div class=\"message-avatar\">\n" ++
  "                <svg width=\"20\" height=\"20\" viewBox=\"0 0 24 24\" fill=\"" ++
  "#3498db\">\n" ++
  "                    <path d=\"M12 12c2.21 0 4-1.79 4-4s-1.79-4-4-4-4 1." ++
  "79-4 4 1.79 4 4 4zm0 2c-2.67 0-8 1.34-8 4v2h16v-2c0-2.66-5.33-4-8-4z\"/" ++
  ">\n" ++
  "                </svg>\n" ++
  "            </div>\n" ++
  "            <div class=\"message-content\">\n" ++
  "                <div class=\"message-text\">" ++
  response ++
  "</div>\n" ++
  "                <div class=\"message-time\">" ++
  time ++
  "</div>\n" ++
  "            </div>\n" ++
  "        </div>\n" ++
  "    "

/-- The reply to a greeting (`app.js` line 822). -/
def replyGreeting : String :=
  "Bonjour ! Je suis l'assistant IA de Ben Tech Marketing. Je peux vous a" ++
  "ider avec la génération de contenu, l'analyse des performances et les " ++
  "recommandations marketing."

/-- The reply about generation (`app.js` line 824). -/
def replyGenerate : String :=
  "Pour générer du contenu, allez dans la section 'Générer' et cliquez su" ++
  "r 'Générer du contenu IA'. J'utiliserai votre module IA Python pour cr" ++
  "éer du contenu optimisé."

/-- The reply about publication (`app.js` line 826). -/
def replyPublish : String :=
  "Pour publier, allez dans la section 'Publier' et cliquez sur 'Publier " ++
  "les contenus en attente'. Vous pouvez aussi publier des contenus spéci" ++
  "fiques depuis la table."

/-- The reply about the status (`app.js` line 828). -/
def replyStatus : String :=
  "Vérifiez le statut dans le Dashboard ou avec le bouton 'Vérifier le st" ++
  "atut'. Vous verrez l'état du serveur, le mode automatique et les endpo" ++
  "ints disponibles."

/-- The reply about content (`app.js` line 830). -/
def replyContent : String :=
  "Votre système génère automatiquement du contenu marketing optimisé ave" ++
  "c IA. Il choisit les thèmes, services et styles basés sur les performa" ++
  "nces historiques."

/-- The reply about the AI (`app.js` line 832). -/
def replyAI : String :=
  "Notre IA analyse l'historique des posts pour optimiser le contenu, cho" ++
  "isir les meilleurs thèmes et services, et générer des recommandations " ++
  "personnalisées."

/-- The array `responses` of generic replies (`app.js` lines 834-839). -/
def responses : List String :=
  [ "Je peux vous aider avec l'analyse des performances, les recommandation" ++
      "s marketing, et la génération de contenu intelligent.",
    "Votre système utilise une IA avancée pour analyser les tendances et op" ++
      "timiser le contenu marketing.",
    "Consultez les statistiques pour voir les performances de vos posts et " ++
      "les recommandations proactives.",
    "Le module IA analyse les données historiques pour créer du contenu per" ++
      "sonnalisé et performant." ]

/-- The default text of `displayBotResponse` (`app.js` line 797). -/
def defaultAnalysisText : String :=
  "J'ai analysé votre question. Voici mes recommandations..."

/-! ## Chat (`app.js` lines 699-859) -/

/-- The local time `HH:MM` shown in a chat message. -/
def chatTime (now : Clock) : String :=
  pad2 now.hours ++ ":" ++ pad2 now.minutes

/-- The function `addUserMessage(text)`, at local time `now`. -/
def addUserMessage (dom : Dom) (now : Clock) (text : String) : Dom :=
  match dom.chatMessages with
  | none => dom
  | some fragments =>
    { dom with chatMessages := some (fragments ++ [userMessageMarkup text (chatTime now)]) }

/-- One call of the arrow function of `recommendations.map`: the text of `r.titre || r`
after the bullet. -/
def recommendationLine {ν : Type} (P : Platform ν) (r : Json ν) : Except JsError String :=
  match Json.get P r "titre" with
  | .error e => .error e
  | .ok titre =>
    match (if optTruthy P titre then Json.toJsString P (titre.getD r)
           else Json.toJsString P r) with
    | .error e => .error e
    | .ok text => .ok ("• " ++ text)

/-- The expression `recommendations.map(...).join('<br>')` on the elements of an array. -/
def recommendationLines {ν : Type} (P : Platform ν) : List (Json ν) → Except JsError String
  | [] => .ok ""
  | r :: rest =>
    match recommendationLine P r with
    | .error e => .error e
    | .ok line =>
      match rest with
      | [] => .ok line
      | _ :: _ =>
        match recommendationLines P rest with
        | .error e => .error e
        | .ok lines => .ok (line ++ "<br>" ++ lines)

/-- The second interpolation of the analysis fragment:
`recommendations && recommendations.length > 0 ? ... : ''`. -/
def recommendationsText {ν : Type} (H : Host ν) (recommendations : Option (Json ν)) :
    Except JsError String :=
  match recommendations with
  | none => .ok ""
  | some recs =>
    if Json.truthy H.toPlatform recs then
      match recs with
      | .arr items =>
        if items.length > 0 then
          match recommendationLines H.toPlatform items with
          | .error e => .error e
          | .ok lines => .ok ("<br><br><strong>💡 Recommandations:</strong><br>" ++ lines)
        else .ok ""
      | .str _ => .error H.notCallableError
      | .obj kvs =>
        match kvs.lookup "length" with
        | none => .ok ""
        | some len =>
          match H.greaterThanZero len with
          | .error e => .error e
          | .ok true => .error H.notCallableError
          | .ok false => .ok ""
      | _ => .ok ""
    else .ok ""

/-- The function `displayBotResponse(apiResponse, userMessage)`, at local time `now`.  It
throws when an interpolation throws, before the fragment is appended. -/
def displayBotResponse {ν : Type} (H : Host ν) (dom : Dom) (now : Clock)
    (apiResponse : Json ν) : Except JsError Dom :=
  match dom.chatMessages with
  | none => .ok dom
  | some fragments =>
    match Json.get H.toPlatform apiResponse "analysis" with
    | .error e => .error e
    | .ok analysis =>
      if optTruthy H.toPlatform analysis then
        match Json.toJsString H.toPlatform (analysis.getD .null) with
        | .error e => .error e
        | .ok analysisText =>
          match Json.get H.toPlatform apiResponse "recommendations" with
          | .error e => .error e
          | .ok recommendations =>
            match recommendationsText H recommendations with
            | .error e => .error e
            | .ok recsText =>
              let fragment := analysisMarkup analysisText recsText (chatTime now)
              .ok { dom with chatMessages := some (fragments ++ [fragment]) }
      else
        match Json.get H.toPlatform apiResponse "message" with
        | .error e => .error e
        | .ok message =>
          match orDefault H.toPlatform message defaultAnalysisText with
          | .error e => .error e
          | .ok text =>
            let fragment := plainResponseMarkup text (chatTime now)
            .ok { dom with chatMessages := some (fragments ++ [fragment]) }

/-- The test `text.includes(part)` on lists of characters. -/
def includesChars : List Char → List Char → Bool
  | [], part => part.isEmpty
  | c :: rest, part => part.isPrefixOf (c :: rest) || includesChars rest part

/-- The method `String.prototype.includes`. -/
def jsIncludes (text part : String) : Bool :=
  includesChars text.data part.data

/-- The reply chosen by `generateBotResponse` (`app.js` lines 818-841); `pick` is the
value of `Math.floor(Math.random() * responses.length)`. -/
def cannedReply {ν : Type} (H : Host ν) (pick : Fin 4) (userMessage : String) : String :=
  let lowerMessage := H.toLowerCase userMessage
  if jsIncludes lowerMessage "bonjour" || jsIncludes lowerMessage "salut" ||
      jsIncludes lowerMessage "hello" then
    replyGreeting
  else if jsIncludes lowerMessage "générer" || jsIncludes lowerMessage "génération" then
    replyGenerate
  else if jsIncludes lowerMessage "publier" || jsIncludes lowerMessage "publication" then
    replyPublish
  else if jsIncludes lowerMessage "statut" || jsIncludes lowerMessage "état" then
    replyStatus
  else if jsIncludes lowerMessage "contenu" || jsIncludes lowerMessage "post" then
    replyContent
  else if jsIncludes lowerMessage "ia" || jsIncludes lowerMessage "intelligence" then
    replyAI
  else
    responses.getD pick.val ""

/-- The function `generateBotResponse(userMessage)`, at local time `now`. -/
def generateBotResponse {ν : Type} (H : Host ν) (dom : Dom) (now : Clock) (pick : Fin 4)
    (userMessage : String) : Dom :=
  match dom.chatMessages with
  | none => dom
  | some fragments =>
    let fragment := botMessageMarkup (cannedReply H pick userMessage) (chatTime now)
    { dom with chatMessages := some (fragments ++ [fragment]) }

/-- The function `sendChatMessage(message)`; `start` and `later` are the local times
before and after the call.  Its promise always resolves.  The `catch` schedules
`generateBotResponse(message)` after 1000 ms, which is recorded as pending. -/
def sendChatMessage {ν : Type} (H : Host ν) (pg : Page) (start later : Clock)
    (message : String) : Page :=
  if jsTrim message = "" then pg
  else
    let dom1 := addUserMessage pg.dom start message
    let dom2 : Dom :=
      match dom1.chatInput with
      | some _ => { dom1 with chatInput := some "" }
      | none => dom1
    match callAPI H.toPlatform pg.world "/api/chat/analyze" "POST"
      (.obj [("question", .str message), ("contexte", .str "dashboard")]) with
    | (w, .rejected _) =>
      { world := w, dom := dom2, pending := pg.pending ++ [.fallbackReply 1000 message] }
    | (w, .resolved result) =>
      if Json.truthy H.toPlatform result then
        match displayBotResponse H dom2 later result with
        | .error _ =>
          { world := w, dom := dom2, pending := pg.pending ++ [.fallbackReply 1000 message] }
        | .ok dom3 => { pg with world := w, dom := dom3 }
      else { pg with world := w, dom := dom2 }

/-! ## Content summary (`app.js` lines 372-392) -/

/-- The UTF-16 code units of a character. -/
def utf16Units (c : Char) : List Nat :=
  if c.toNat < 65536 then [c.toNat]
  else [55296 + (c.toNat - 65536) / 1024, 56320 + (c.toNat - 65536) % 1024]

/-- A string as the sequence of its UTF-16 code units, the unit in which `length` and
`substring` count. -/
def utf16 (s : String) : List Nat :=
  s.data.flatMap utf16Units

/-- The two adjacent interpolations
`text?.substring(0, limit) || 'Non disponible'` and `text?.length > limit ? '...' : ''`.
On a value that is neither a string nor `null` nor `undefined`, `substring` is not a
function and the call throws. -/
def excerpt {ν : Type} (H : Host ν) (limit : Nat) (text : Option (Json ν)) :
    Except JsError (List Nat) :=
  match text with
  | none => .ok (utf16 "Non disponible")
  | some .null => .ok (utf16 "Non disponible")
  | some (.str s) =>
    let shown := (utf16 s).take limit
    .ok ((if shown = [] then utf16 "Non disponible" else shown) ++
      (if (utf16 s).length > limit then utf16 "..." else []))
  | some _ => .error H.notCallableError

/-- The template literal `formattedContent` (`app.js` lines 376-392), in UTF-16 code units,
from the values of its interpolations; `marketing` and `script` are the values of the two
pairs of adjacent interpolations. -/
def summaryMarkup (titre theme service style type taux : String) (marketing script : List Nat)
    (image auteur : String) : List Nat :=
  utf16 ("\n🏷️ Titre: " ++ titre ++ "\n🎯 Thème: " ++ theme ++
    "\n💼 Service: " ++ service ++ "\n🎨 Style: " ++ style ++
    "\n📊 Type: " ++ type ++ "\n📈 Conversion estimée: " ++ taux ++ "%") ++
  utf16 "\n\n📝 Texte marketing:\n" ++ marketing ++
  utf16 "\n\n🎥 Script vidéo:\n" ++ script ++
  utf16 ("\n\n🖼️ Image: " ++ image ++ "\n👤 Auteur image: " ++ auteur ++
    "\n            ")

/-- The value of `formattedContent` in `generateContent`, for `contentData = result.data`
(`undefined` when `data` is `none`). -/
def formattedContent {ν : Type} (H : Host ν) (data : Option (Json ν)) :
    Except JsError (List Nat) :=
  let contentData : Json ν := data.getD .null
  let field (key fallback : String) : Except JsError String :=
    match Json.get H.toPlatform contentData key with
    | .error e => .error e
    | .ok v => orDefault H.toPlatform v fallback
  let raw (key : String) : Option (Json ν) :=
    match Json.get H.toPlatform contentData key with
    | .error _ => none
    | .ok v => v
  match field "titre" "Sans titre" with
  | .error e => .error e
  | .ok titre =>
  match field "theme" "Non spécifié" with
  | .error e => .error e
  | .ok theme =>
  match field "service" "Non spécifié" with
  | .error e => .error e
  | .ok service =>
  match field "style" "Standard" with
  | .error e => .error e
  | .ok style =>
  match field "type_publication" "contenu" with
  | .error e => .error e
  | .ok type =>
  match field "taux_conversion_estime" "0" with
  | .error e => .error e
  | .ok taux =>
  match excerpt H 500 (raw "texte_marketing") with
  | .error e => .error e
  | .ok marketing =>
  match excerpt H 300 (raw "script_video") with
  | .error e => .error e
  | .ok script =>
  match field "image_auteur" "Non spécifié" with
  | .error e => .error e
  | .ok auteur =>
    .ok (summaryMarkup titre theme service style type taux marketing script
      (if optTruthy H.toPlatform (raw "image_path") then "Téléchargée ✓" else "Non disponible")
      auteur)

/-! ## A sample host and page

Used to run the page functions on concrete inputs.  The sample host lower-cases the letters
of Basic Latin and Latin-1, and compares with zero the texts that are plain decimal
numerals; the examples use no other cased letter and no other numeric text. -/

/-- Lower case of a character of Basic Latin or Latin-1. -/
def sampleLowerChar (c : Char) : Char :=
  let n := c.toNat
  if (65 ≤ n ∧ n ≤ 90) ∨ (192 ≤ n ∧ n ≤ 222 ∧ n ≠ 215) then Char.ofNat (n + 32) else c

/-- The lower-casing of the sample host. -/
def sampleToLowerCase (s : String) : String :=
  String.mk (s.data.map sampleLowerChar)

mutual
/-- The call `JSON.stringify(value, null, 2)` on the sample numbers; `pad` is the current
indentation. -/
def sampleIndented (pad : String) : Json SampleNumber → String
  | .null => "null"
  | .bool b => if b then "true" else "false"
  | .num n => toString n.val
  | .str s => quoteJson s
  | .arr xs =>
    match xs with
    | [] => "[]"
    | _ :: _ => "[\n" ++ sampleIndentedItems (pad ++ "  ") xs ++ "\n" ++ pad ++ "]"
  | .obj kvs =>
    match kvs with
    | [] => "\x7b\x7d"
    | _ :: _ => "\x7b\n" ++ sampleIndentedFields (pad ++ "  ") kvs ++ "\n" ++ pad ++ "\x7d"
termination_by structural x => x
/-- The elements of an array, one per line. -/
def sampleIndentedItems (pad : String) : List (Json SampleNumber) → String
  | [] => ""
  | x :: rest =>
    match rest with
    | [] => pad ++ sampleIndented pad x
    | _ :: _ => pad ++ sampleIndented pad x ++ ",\n" ++ sampleIndentedItems pad rest
termination_by structural x => x
/-- The fields of an object, one per line. -/
def sampleIndentedFields (pad : String) : List (String × Json SampleNumber) → String
  | [] => ""
  | kv :: rest =>
    match rest with
    | [] => pad ++ quoteJson kv.1 ++ ": " ++ sampleIndented pad kv.2
    | _ :: _ =>
      pad ++ quoteJson kv.1 ++ ": " ++ sampleIndented pad kv.2 ++ ",\n" ++
        sampleIndentedFields pad rest
termination_by structural x => x
end

/-- The comparison `text > 0` for a text: a plain decimal numeral is positive when one of
its digits is not zero; the empty text is zero. -/
def textGreaterThanZero (text : String) : Bool :=
  let t := (jsTrim text).data
  t.all (fun c => c.isDigit) && t.any (fun c => c != Char.ofNat 48)

/-- The comparison `value > 0` of the sample host: an array or object is first converted
to a text. -/
def sampleGreaterThanZero (P : Platform SampleNumber) (value : Json SampleNumber) :
    Except JsError Bool :=
  match value with
  | .null => .ok false
  | .bool b => .ok b
  | .num n => .ok (decide (0 < n.val))
  | .str s => .ok (textGreaterThanZero s)
  | v =>
    match Json.toJsString P v with
    | .error e => .error e
    | .ok s => .ok (textGreaterThanZero s)

/-- The payload of a publication of three contents. -/
def samplePublished : Json SampleNumber :=
  .obj [("message", .str "Posted"), ("published_count", .num 3)]

/-- A publication payload with an empty message. -/
def sampleSilentPublished : Json SampleNumber :=
  .obj [("message", .str ""), ("published_count", .num 3)]

/-- A log payload of `n` lines. -/
def sampleLogs (n : Nat) : Json SampleNumber :=
  .obj [("logs", .arr (List.replicate n (.str " INFO ok ")))]

/-- The JSON values the sample servers send. -/
def pageCorpus : List (Json SampleNumber) :=
  sampleCorpus ++ [samplePublished, sampleSilentPublished, sampleLogs 2, sampleLogs 51,
    .bool false]

/-- The parser of the sample host: the inverse of `sampleStringify` on `pageCorpus`. -/
def pageParse (text : String) : Option (Json SampleNumber) :=
  pageCorpus.find? (fun v => sampleStringify v == text)

/-- The sample network of the page: publication succeeds and two log lines exist. -/
def pageNet (req : Request) : Except JsError Response :=
  if req.url = "/api/publish" then .ok (jsonResponse 200 samplePublished)
  else if req.url = "/api/logs" then .ok (jsonResponse 200 (sampleLogs 2))
  else sampleNet req

/-- A network with unusual answers: the status is `false`, the publication message is
empty and the server holds 51 log lines. -/
def oddNet (req : Request) : Except JsError Response :=
  if req.url = "/api/status" then .ok (jsonResponse 200 (.bool false))
  else if req.url = "/api/publish" then .ok (jsonResponse 200 sampleSilentPublished)
  else if req.url = "/api/logs" then .ok (jsonResponse 200 (sampleLogs 51))
  else sampleNet req

/-- The sample host over a given network. -/
def sampleHost (net : Request → Except JsError Response) : Host SampleNumber :=
  { fetch := net
    jsonParse := pageParse
    jsonStringify := sampleStringify
    numberToBoolean := (samplePlatform net).numberToBoolean
    numberToString := (samplePlatform net).numberToString
    syntaxError := (samplePlatform net).syntaxError
    bodyUsedError := (samplePlatform net).bodyUsedError
    nullAccessError := (samplePlatform net).nullAccessError
    toPrimitiveError := (samplePlatform net).toPrimitiveError
    toLowerCase := sampleToLowerCase
    toLowerCase_blank := by
      intro s hs
      have hmap : s.data.map sampleLowerChar = s.data := by
        conv_rhs => rw [← List.map_id s.data]
        apply List.map_congr_left
        intro c hc
        have hw := hs c hc
        simp only [isJsWhiteSpace, Bool.or_eq_true, Bool.and_eq_true, beq_iff_eq,
          decide_eq_true_eq] at hw
        have hn : ¬ ((65 ≤ c.toNat ∧ c.toNat ≤ 90) ∨
            (192 ≤ c.toNat ∧ c.toNat ≤ 222 ∧ c.toNat ≠ 215)) := by omega
        simp only [sampleLowerChar, hn, if_false, id]
      show String.mk (s.data.map sampleLowerChar) = s
      rw [hmap]
    jsonStringifyIndented := sampleIndented ""
    greaterThanZero := sampleGreaterThanZero (samplePlatform net)
    notCallableError := ⟨"TypeError", "value is not a function"⟩ }

/-- An empty result box. -/
def emptyBox : ResultBox :=
  { text := "", background := "", borderColor := "", shown := false }

/-- The DOM of the dashboard as loaded. -/
def sampleDom : Dom :=
  { results := [("actionResult", emptyBox), ("generateResult", emptyBox),
      ("publishResult", emptyBox)]
    realtimeLogs := some []
    statCards := [some "--", some "--", some "--", none]
    contentTable := some ""
    chatMessages := some []
    chatInput := some "bonjour"
    publishContentBtn := some { text := "Publier", loading := false, disabled := false }
    publishNowBtn := none }

/-- A DOM in which none of the looked-up elements exists. -/
def bareDom : Dom :=
  { results := []
    realtimeLogs := none
    statCards := []
    contentTable := none
    chatMessages := none
    chatInput := none
    publishContentBtn := none
    publishNowBtn := none }

/-- The dashboard page with an active session. -/
def samplePage : Page :=
  { world := loggedIn, dom := sampleDom, pending := [] }

/-- Half past nine in the morning. -/
def morning : Clock := { hours := 9, minutes := 30, seconds := 5 }

/-! ## Storage lemmas -/

theorem getItem_removeItem_self (st : Storage) (key : String) :
    getItem (removeItem st key) key = none := by
  induction st with
  | nil => rfl
  | cons kv rest ih =>
    simp only [getItem, removeItem] at ih ⊢
    rw [List.filter_cons]
    by_cases h : kv.1 = key
    · have hc : (!(kv.1 == key)) = false := by simp [h]
      simp only [hc, Bool.false_eq_true, if_false]
      exact ih
    · have hc : (!(kv.1 == key)) = true := by simp [h]
      have h2 : (key == kv.1) = false := by
        simp only [beq_eq_false_iff_ne, ne_eq]
        exact fun e => h e.symm
      simp only [hc, if_true]
      rw [List.lookup_cons, h2]
      exact ih

theorem getItem_removeItem_none (st : Storage) (key other : String)
    (h : getItem st key = none) : getItem (removeItem st other) key = none := by
  induction st with
  | nil => rfl
  | cons kv rest ih =>
    simp only [getItem, removeItem] at ih h ⊢
    rw [List.lookup_cons] at h
    rw [List.filter_cons]
    cases hk : (key == kv.1) with
    | true => rw [hk] at h; exact absurd h (by simp)
    | false =>
      rw [hk] at h
      by_cases ho : kv.1 = other
      · have hc : (!(kv.1 == other)) = false := by simp [ho]
        simp only [hc, Bool.false_eq_true, if_false]
        exact ih h
      · have hc : (!(kv.1 == other)) = true := by simp [ho]
        simp only [hc, if_true]
        rw [List.lookup_cons, hk]
        exact ih h

theorem session_cleared (st : Storage) :
    getItem (removeItem (removeItem st "auth_token") "user") "auth_token" = none ∧
    getItem (removeItem (removeItem st "auth_token") "user") "user" = none :=
  ⟨getItem_removeItem_none _ _ _ (getItem_removeItem_self st "auth_token"),
   getItem_removeItem_self _ "user"⟩

theorem checkSession_inactive (w : World)
    (h : strTruthy (isUserLoggedIn w.storage) = false) :
    checkSession w = ({ w with href := "/" }, false) := by
  simp [checkSession, h]

theorem checkSession_active (w : World)
    (h : strTruthy (isUserLoggedIn w.storage) = true) :
    checkSession w = (w, true) := by
  simp [checkSession, h]

/-! ## The branches of `callAPI` -/

theorem ok_false_of_unauthorized (r : Response) (h : r.status = 401) : r.ok = false := by
  simp [Response.ok, h]

theorem callAPI_inactive {ν : Type} (P : Platform ν) (w : World) (endpoint method : String)
    (data : Json ν) (h : strTruthy (isUserLoggedIn w.storage) = false) :
    callAPI P w endpoint method data = ({ w with href := "/" }, .resolved .null) := by
  simp [callAPI, checkSession_inactive w h]

theorem callAPI_fetch_failed {ν : Type} (P : Platform ν) (w : World)
    (endpoint method : String) (data : Json ν) (e : JsError)
    (h : strTruthy (isUserLoggedIn w.storage) = true)
    (hf : P.fetch (requestOptions P w.storage endpoint method data) = .error e) :
    callAPI P w endpoint method data =
      (w.emit (.fetch (requestOptions P w.storage endpoint method data)), .rejected e) := by
  simp [callAPI, checkSession_active w h, hf]

theorem callAPI_unauthorized {ν : Type} (P : Platform ν) (w : World)
    (endpoint method : String) (data : Json ν) (response : Response)
    (h : strTruthy (isUserLoggedIn w.storage) = true)
    (hf : P.fetch (requestOptions P w.storage endpoint method data) = .ok response)
    (hs : response.status = 401) :
    callAPI P w endpoint method data =
      ({ storage := removeItem (removeItem w.storage "auth_token") "user"
         href := "/"
         trace := w.trace ++ [.fetch (requestOptions P w.storage endpoint method data)] },
        .resolved .null) := by
  simp [callAPI, checkSession_active w h, hf, ok_false_of_unauthorized response hs, hs,
    World.emit]

theorem callAPI_http_failure {ν : Type} (P : Platform ν) (w : World)
    (endpoint method : String) (data : Json ν) (response : Response)
    (h : strTruthy (isUserLoggedIn w.storage) = true)
    (hf : P.fetch (requestOptions P w.storage endpoint method data) = .ok response)
    (hok : response.ok = false) (hs : response.status ≠ 401) :
    callAPI P w endpoint method data =
      httpFailure P (w.emit (.fetch (requestOptions P w.storage endpoint method data)))
        response := by
  simp [callAPI, checkSession_active w h, hf, hok, hs]

theorem callAPI_success {ν : Type} (P : Platform ν) (w : World)
    (endpoint method : String) (data : Json ν) (response : Response)
    (h : strTruthy (isUserLoggedIn w.storage) = true)
    (hf : P.fetch (requestOptions P w.storage endpoint method data) = .ok response)
    (hok : response.ok = true) :
    callAPI P w endpoint method data =
      ((w.emit (.fetch (requestOptions P w.storage endpoint method data))).emit .readJson,
        match (Response.json P response false).1 with
        | .ok v => .resolved v
        | .error e => .rejected e) := by
  simp only [callAPI, checkSession_active w h, hf, hok]
  cases (Response.json P response false).1 <;> rfl

/-! ## The HTTP failure path -/

theorem fetchCount_emit_fetch (w : World) (req : Request) :
    fetchCount (w.emit (.fetch req)).trace = fetchCount w.trace + 1 := by
  simp [fetchCount, World.emit, List.filter_append]

theorem fetchCount_emit_readJson (w : World) :
    fetchCount (w.emit .readJson).trace = fetchCount w.trace := by
  simp [fetchCount, World.emit, List.filter_append]

theorem fetchCount_emit_readText (w : World) :
    fetchCount (w.emit .readText).trace = fetchCount w.trace := by
  simp [fetchCount, World.emit, List.filter_append]

/-- The first `json()` on a fresh response parses the body text and marks a non-null body
as used. -/
theorem json_first_read {ν : Type} (P : Platform ν) (r : Response) :
    Response.json P r false =
      (match P.jsonParse (r.body.getD "") with
        | some v => .ok v
        | none => .error (P.syntaxError (r.body.getD "")),
       r.body.isSome) := by
  unfold Response.json Response.consume
  cases hb : r.body with
  | none =>
    simp only [Option.getD_none, Option.isSome_none]
    cases P.jsonParse "" <;> rfl
  | some b =>
    simp only [Option.getD_some, Option.isSome_some, Bool.false_eq_true, if_false]
    cases P.jsonParse b <;> rfl

/-- The world after `httpFailure`: storage and location are untouched and no request is
issued; the outcome is always a rejection. -/
theorem httpFailure_effects {ν : Type} (P : Platform ν) (w : World) (r : Response) :
    (httpFailure P w r).1.storage = w.storage ∧
    (httpFailure P w r).1.href = w.href ∧
    fetchCount (httpFailure P w r).1.trace = fetchCount w.trace ∧
    ∃ e, (httpFailure P w r).2 = .rejected e := by
  unfold httpFailure
  simp only
  split
  · exact ⟨rfl, rfl, fetchCount_emit_readJson w, _, rfl⟩
  · split
    · refine ⟨rfl, rfl, ?_, _, rfl⟩
      rw [fetchCount_emit_readText, fetchCount_emit_readJson]
    · refine ⟨rfl, rfl, ?_, _, rfl⟩
      rw [fetchCount_emit_readText, fetchCount_emit_readJson]

/-! ## Session store -/

theorem isUserLoggedIn_falsy_of_missing (st : Storage)
    (h : getItem st "auth_token" = none ∨ getItem st "user" = none) :
    strTruthy (isUserLoggedIn st) = false := by
  unfold isUserLoggedIn
  cases ht : getItem st "auth_token" with
  | none => simp [strTruthy]
  | some t =>
    have hu : getItem st "user" = none := by
      rcases h with h | h
      · rw [ht] at h; exact absurd h (by simp)
      · exact h
    by_cases h1 : t = ""
    · simp [strTruthy, h1]
    · simp [strTruthy, h1, hu]

theorem token_of_active (st : Storage) (h : strTruthy (isUserLoggedIn st) = true) :
    ∃ t, getItem st "auth_token" = some t ∧ t ≠ "" := by
  unfold isUserLoggedIn at h
  cases ht : getItem st "auth_token" with
  | none => simp [ht, strTruthy] at h
  | some t =>
    refine ⟨t, rfl, ?_⟩
    intro h1
    simp [ht, strTruthy, h1] at h

/-- C9, as stated, fails: with both keys present but an empty token, `isUserLoggedIn()`
is falsy. -/
theorem isUserLoggedIn_present_but_falsy :
    (getItem [("auth_token", ""), ("user", "alice")] "auth_token").isSome = true ∧
    (getItem [("auth_token", ""), ("user", "alice")] "user").isSome = true ∧
    strTruthy (isUserLoggedIn [("auth_token", ""), ("user", "alice")]) = false := by
  decide

/-- C9, amended: `isUserLoggedIn()` is truthy if and only if both `auth_token` and `user`
are present in storage with non-empty values; a storage lacking one of the two keys has no
session. -/
theorem isUserLoggedIn_truthy_iff (st : Storage) :
    (strTruthy (isUserLoggedIn st) = true ↔
      (∃ t, getItem st "auth_token" = some t ∧ t ≠ "") ∧
      (∃ u, getItem st "user" = some u ∧ u ≠ "")) ∧
    ((getItem st "auth_token" = none ∨ getItem st "user" = none) →
      strTruthy (isUserLoggedIn st) = false) := by
  unfold isUserLoggedIn
  cases ht : getItem st "auth_token" with
  | none => simp [strTruthy]
  | some t =>
    cases hu : getItem st "user" with
    | none =>
      by_cases h1 : t = ""
      · simp [strTruthy, h1]
      · simp [strTruthy, h1]
    | some u =>
      by_cases h1 : t = ""
      · simp [strTruthy, h1]
      · simp [strTruthy, h1]

/-- Witness for C9: a storage holding only the token has no session. -/
theorem isUserLoggedIn_truthy_iff_witness :
    getItem [("auth_token", "Bearer abc123")] "user" = none ∧
    strTruthy (isUserLoggedIn [("auth_token", "Bearer abc123")]) = false :=
  ⟨by decide, (isUserLoggedIn_truthy_iff [("auth_token", "Bearer abc123")]).2
    (Or.inr (by decide))⟩

/-! ## The API client without a usable session -/

/-- C1: when `callAPI` starts without an active session (`isUserLoggedIn()` falsy), it
resolves to `null`, the location is set to `/`, and nothing is added to the trace: no
`fetch` is issued.  The storage is left as it was. -/
theorem callAPI_no_session {ν : Type} (P : Platform ν) (w : World)
    (endpoint method : String) (data : Json ν)
    (h : strTruthy (isUserLoggedIn w.storage) = false) :
    (callAPI P w endpoint method data).2 = .resolved .null ∧
    (callAPI P w endpoint method data).1.href = "/" ∧
    (callAPI P w endpoint method data).1.trace = w.trace ∧
    fetchCount (callAPI P w endpoint method data).1.trace = fetchCount w.trace ∧
    (callAPI P w endpoint method data).1.storage = w.storage := by
  rw [callAPI_inactive P w endpoint method data h]
  exact ⟨rfl, rfl, rfl, rfl, rfl⟩

/-- Witness for C1: a status call from a page without a session. -/
theorem callAPI_no_session_witness :
    strTruthy (isUserLoggedIn loggedOut.storage) = false ∧
    (callAPI (samplePlatform sampleNet) loggedOut "/api/status" "GET" .null).2
      = .resolved .null ∧
    (callAPI (samplePlatform sampleNet) loggedOut "/api/status" "GET" .null).1.href = "/" ∧
    (callAPI (samplePlatform sampleNet) loggedOut "/api/status" "GET" .null).1.trace = [] :=
  have h := callAPI_no_session (samplePlatform sampleNet) loggedOut "/api/status" "GET"
    .null (by decide)
  ⟨by decide, h.1, h.2.1, h.2.2.1⟩

/-- C2: with an active session, a response of status 401 makes `callAPI` remove
`auth_token` and `user` from storage (the session is inactive afterwards), set the
location to `/` and resolve to `null`; the only event of the call is the `fetch`, so the
body of the response is not read. -/
theorem callAPI_status_401 {ν : Type} (P : Platform ν) (w : World)
    (endpoint method : String) (data : Json ν) (response : Response)
    (h : strTruthy (isUserLoggedIn w.storage) = true)
    (hf : P.fetch (requestOptions P w.storage endpoint method data) = .ok response)
    (hs : response.status = 401) :
    (callAPI P w endpoint method data).2 = .resolved .null ∧
    getItem (callAPI P w endpoint method data).1.storage "auth_token" = none ∧
    getItem (callAPI P w endpoint method data).1.storage "user" = none ∧
    strTruthy (isUserLoggedIn (callAPI P w endpoint method data).1.storage) = false ∧
    (callAPI P w endpoint method data).1.href = "/" ∧
    (callAPI P w endpoint method data).1.trace =
      w.trace ++ [.fetch (requestOptions P w.storage endpoint method data)] ∧
    bodyReadCount (callAPI P w endpoint method data).1.trace = bodyReadCount w.trace := by
  rw [callAPI_unauthorized P w endpoint method data response h hf hs]
  have hc := session_cleared w.storage
  refine ⟨rfl, hc.1, hc.2, ?_, rfl, rfl, ?_⟩
  · exact isUserLoggedIn_falsy_of_missing _ (Or.inl hc.1)
  · simp [bodyReadCount, List.filter_append]

/-- Witness for C2: the sample server answers 401 on `/api/config`. -/
theorem callAPI_status_401_witness :
    (callAPI (samplePlatform sampleNet) loggedIn "/api/config" "GET" .null).2
      = .resolved .null ∧
    (callAPI (samplePlatform sampleNet) loggedIn "/api/config" "GET" .null).1.storage
      = [("theme", "dark")] ∧
    (callAPI (samplePlatform sampleNet) loggedIn "/api/config" "GET" .null).1.href = "/" :=
  have h := callAPI_status_401 (samplePlatform sampleNet) loggedIn "/api/config" "GET"
    .null ⟨401, some "Unauthorized"⟩ (by decide) (by rfl) (by rfl)
  ⟨h.1, by rfl, h.2.2.2.2.1⟩

/-! ## Error bodies that are not JSON -/

/-- On a non-null body that is not JSON, the fallback of `httpFailure` does not obtain the
raw text: `json()` has consumed the body, so `text()` is rejected and that rejection is
what the caller sees. -/
theorem httpFailure_not_json {ν : Type} (P : Platform ν) (w : World) (r : Response)
    (b : String) (hb : r.body = some b) (hp : P.jsonParse b = none) :
    httpFailure P w r =
      ((w.emit .readJson).emit .readText, .rejected (P.bodyUsedError "text")) := by
  unfold httpFailure
  simp [json_first_read, hb, hp, Response.text, Response.consume]

/-- On a null body, which reads as the empty text, the fallback obtains that text. -/
theorem httpFailure_null_body {ν : Type} (P : Platform ν) (w : World) (r : Response)
    (hb : r.body = none) (hp : P.jsonParse "" = none) :
    httpFailure P w r = ((w.emit .readJson).emit .readText, .rejected ⟨"Error", ""⟩) := by
  unfold httpFailure
  simp [json_first_read, hb, hp, Response.text, Response.consume, newError,
    Json.toJsString]

/-- C3 fails on the code: the sample server answers `/api/publish` with status 500 and
the text `Internal Server Error`, which is not JSON.  `callAPI` reads the body with
`json()`, then with `text()`, and rejects with the `TypeError` of the second read, not
with an error carrying the raw text. -/
theorem callAPI_raw_text_fallback_lost :
    sampleNet (requestOptions (samplePlatform sampleNet) loggedIn.storage "/api/publish"
      "POST" .null) = .ok ⟨500, some "Internal Server Error"⟩ ∧
    sampleParse "Internal Server Error" = none ∧
    callAPI (samplePlatform sampleNet) loggedIn "/api/publish" "POST" .null =
      ({ storage := loggedIn.storage
         href := "/dashboard"
         trace := [.fetch ⟨"/api/publish", "POST",
                     [("Content-Type", "application/json"),
                      ("Authorization", "Bearer abc123")], none⟩,
                   .readJson, .readText] },
        .rejected ⟨"TypeError", "Response.text: Body has already been consumed."⟩) :=
  ⟨rfl, rfl, rfl⟩

/-! ## Which failures reject -/

/-- C4, as stated, fails: both forms of the unauthenticated error end in a normal
resolution.  Without a session, and on a 401 answer (`/api/config` on the sample server),
`callAPI` resolves to `null`. -/
theorem callAPI_unauthenticated_resolves :
    strTruthy (isUserLoggedIn loggedOut.storage) = false ∧
    (callAPI (samplePlatform sampleNet) loggedOut "/api/stats" "GET" .null).2
      = .resolved .null ∧
    sampleNet (requestOptions (samplePlatform sampleNet) loggedIn.storage "/api/config"
      "GET" .null) = .ok ⟨401, some "Unauthorized"⟩ ∧
    (callAPI (samplePlatform sampleNet) loggedIn "/api/config" "GET" .null).2
      = .resolved .null :=
  ⟨by decide, rfl, rfl, rfl⟩

/-- C4, amended: a network failure and a non-success status other than 401 always reach
the caller as a rejection; the unauthenticated cases (no active session, or status 401)
resolve to `null`. -/
theorem callAPI_failure_outcomes {ν : Type} (P : Platform ν) (w : World)
    (endpoint method : String) (data : Json ν) :
    (strTruthy (isUserLoggedIn w.storage) = false →
      (callAPI P w endpoint method data).2 = .resolved .null) ∧
    (strTruthy (isUserLoggedIn w.storage) = true →
      (∀ e, P.fetch (requestOptions P w.storage endpoint method data) = .error e →
        (callAPI P w endpoint method data).2 = .rejected e) ∧
      (∀ response,
        P.fetch (requestOptions P w.storage endpoint method data) = .ok response →
        (response.status = 401 →
          (callAPI P w endpoint method data).2 = .resolved .null) ∧
        (response.ok = false → response.status ≠ 401 →
          ∃ e, (callAPI P w endpoint method data).2 = .rejected e))) := by
  refine ⟨fun h => ?_, fun h => ⟨fun e hf => ?_, fun response hf => ⟨fun hs => ?_,
    fun hok hs => ?_⟩⟩⟩
  · rw [callAPI_inactive P w endpoint method data h]
  · rw [callAPI_fetch_failed P w endpoint method data e h hf]
  · rw [callAPI_unauthorized P w endpoint method data response h hf hs]
  · rw [callAPI_http_failure P w endpoint method data response h hf hok hs]
    exact (httpFailure_effects P _ response).2.2.2

/-- Witness for C4: on the sample server `/api/stats` answers 429 and `/generate` is
unreachable; both calls are rejected. -/
theorem callAPI_failure_outcomes_witness :
    (∃ e, (callAPI (samplePlatform sampleNet) loggedIn "/api/stats" "GET" .null).2
      = .rejected e) ∧
    (callAPI (samplePlatform sampleNet) loggedIn "/generate" "GET" .null).2
      = .rejected ⟨"TypeError", "Failed to fetch"⟩ :=
  ⟨((callAPI_failure_outcomes (samplePlatform sampleNet) loggedIn "/api/stats" "GET"
      .null).2 (by decide)).2 _ (by rfl) |>.2 (by decide) (by decide),
   ((callAPI_failure_outcomes (samplePlatform sampleNet) loggedIn "/generate" "GET"
      .null).2 (by decide)).1 _ (by rfl)⟩

/-! ## The request sent -/

/-- With an active session the first event of a call is the `fetch` of the request built
by `requestOptions`. -/
theorem callAPI_trace_active {ν : Type} (P : Platform ν) (w : World)
    (endpoint method : String) (data : Json ν)
    (h : strTruthy (isUserLoggedIn w.storage) = true) :
    ∃ rest, (callAPI P w endpoint method data).1.trace =
      w.trace ++ .fetch (requestOptions P w.storage endpoint method data) :: rest := by
  cases hf : P.fetch (requestOptions P w.storage endpoint method data) with
  | error e =>
    rw [callAPI_fetch_failed P w endpoint method data e h hf]
    exact ⟨[], rfl⟩
  | ok response =>
    by_cases hok : response.ok = true
    · rw [callAPI_success P w endpoint method data response h hf hok]
      exact ⟨[.readJson], by simp [World.emit]⟩
    · have hok2 : response.ok = false := by simpa using hok
      by_cases hs : response.status = 401
      · rw [callAPI_unauthorized P w endpoint method data response h hf hs]
        exact ⟨[], rfl⟩
      · rw [callAPI_http_failure P w endpoint method data response h hf hok2 hs]
        unfold httpFailure
        simp only
        split
        · exact ⟨[.readJson], by simp [World.emit]⟩
        · split
          · exact ⟨[.readJson, .readText], by simp [World.emit]⟩
          · exact ⟨[.readJson, .readText], by simp [World.emit]⟩

/-- C5, as stated, fails: a body argument that is supplied but falsy is not sent.  The call
`callAPI('/api/config', 'PUT', false)` issues a request without a body, although
`JSON.stringify(false)` is the text `false`. -/
theorem callAPI_falsy_body_not_sent :
    (Json.bool false : Json SampleNumber) ≠ Json.null ∧
    sampleStringify (.bool false) = "false" ∧
    (callAPI (samplePlatform sampleNet) loggedIn "/api/config" "PUT" (.bool false)).1.trace =
      [.fetch ⟨"/api/config", "PUT",
         [("Content-Type", "application/json"), ("Authorization", "Bearer abc123")],
         none⟩] :=
  ⟨by simp, rfl, rfl⟩

/-- C5, amended: with an active session `callAPI` issues a request to the given endpoint
with the given method, whose `Authorization` header is the token stored under
`auth_token` and whose `Content-Type` header is `application/json` (with or without a
body); the request body is the JSON serialisation of the body argument when that argument
is truthy, and there is no request body when it is falsy. -/
theorem callAPI_request_shape {ν : Type} (P : Platform ν) (w : World)
    (endpoint method : String) (data : Json ν)
    (h : strTruthy (isUserLoggedIn w.storage) = true) :
    ∃ req rest,
      (callAPI P w endpoint method data).1.trace = w.trace ++ .fetch req :: rest ∧
      req.url = endpoint ∧ req.method = method ∧
      req.headers.lookup "Authorization" = getItem w.storage "auth_token" ∧
      req.headers.lookup "Content-Type" = some "application/json" ∧
      (Json.truthy P data = true → req.body = some (P.jsonStringify data)) ∧
      (Json.truthy P data = false → req.body = none) := by
  obtain ⟨rest, hrest⟩ := callAPI_trace_active P w endpoint method data h
  obtain ⟨t, ht, hne⟩ := token_of_active w.storage h
  refine ⟨requestOptions P w.storage endpoint method data, rest, hrest, rfl, rfl, ?_, ?_,
    ?_, ?_⟩
  · have h1 : ("Authorization" == "Content-Type") = false := by decide
    simp [requestOptions, List.lookup_cons, h1, ht, strTruthy, hne]
  · simp [requestOptions, List.lookup_cons]
  · intro hd
    simp [requestOptions, hd]
  · intro hd
    simp [requestOptions, hd]

/-- Witness for C5: a chat question sent as a JSON object. -/
theorem callAPI_request_shape_witness :
    ∃ req rest,
      (callAPI (samplePlatform sampleNet) loggedIn "/api/chat/analyze" "POST"
        (.obj [("question", .str "bonjour")])).1.trace = [] ++ .fetch req :: rest ∧
      req.url = "/api/chat/analyze" ∧ req.method = "POST" ∧
      req.headers.lookup "Authorization" = some "Bearer abc123" ∧
      req.headers.lookup "Content-Type" = some "application/json" ∧
      req.body = some "\x7b\"question\":\"bonjour\"\x7d" := by
  obtain ⟨req, rest, h1, h2, h3, h4, h5, h6, _⟩ :=
    callAPI_request_shape (samplePlatform sampleNet) loggedIn "/api/chat/analyze" "POST"
      (.obj [("question", .str "bonjour")]) (by decide)
  exact ⟨req, rest, h1, h2, h3, h4, h5, h6 rfl⟩

/-! ## Structured error bodies -/

/-- When the error body parses to a JSON object, `httpFailure` throws
`new Error(errorData.message || errorMessage)` after the single read. -/
theorem httpFailure_object {ν : Type} (P : Platform ν) (w : World) (r : Response)
    (kvs : List (String × Json ν))
    (hp : P.jsonParse (r.body.getD "") = some (.obj kvs)) :
    httpFailure P w r =
      (w.emit .readJson,
        .rejected (newError P
          (match kvs.lookup "message" with
            | none => .str ("Erreur HTTP: " ++ toString r.status)
            | some m =>
              if Json.truthy P m then m
              else .str ("Erreur HTTP: " ++ toString r.status)))) := by
  unfold httpFailure
  simp only [json_first_read, hp, Json.getMessage]
  cases kvs.lookup "message" <;> rfl

theorem newError_str {ν : Type} (P : Platform ν) (s : String) :
    newError P (.str s) = ⟨"Error", s⟩ := by
  simp [newError, Json.toJsString]

/-- C6, as stated, fails: the sample server answers `/api/chat/analyze` with status 422
and a JSON object whose `message` field is the object with the single field `code: 7`.
The field is present and not empty, yet the error rejected with has the message
`[object Object]`, which is neither the field nor `Erreur HTTP: 422`. -/
theorem callAPI_object_message_flattened :
    sampleNet (requestOptions (samplePlatform sampleNet) loggedIn.storage
      "/api/chat/analyze" "POST" .null) =
      .ok ⟨422, some "\x7b\"message\":\x7b\"code\":7\x7d\x7d"⟩ ∧
    sampleParse "\x7b\"message\":\x7b\"code\":7\x7d\x7d" =
      some (.obj [("message", .obj [("code", .num 7)])]) ∧
    (callAPI (samplePlatform sampleNet) loggedIn "/api/chat/analyze" "POST" .null).2 =
      .rejected ⟨"Error", "[object Object]"⟩ :=
  ⟨rfl, rfl, rfl⟩

/-- C6, amended: for a non-success, non-401 response whose body parses to a JSON object,
`callAPI` rejects and leaves storage and location unchanged.  The error message is the
`message` field when that field is a non-empty string, and `Erreur HTTP: <status>` when
the field is absent or falsy; a truthy field of another type goes through the string
conversion of `new Error`. -/
theorem callAPI_structured_error {ν : Type} (P : Platform ν) (w : World)
    (endpoint method : String) (data : Json ν) (response : Response)
    (kvs : List (String × Json ν))
    (h : strTruthy (isUserLoggedIn w.storage) = true)
    (hf : P.fetch (requestOptions P w.storage endpoint method data) = .ok response)
    (hok : response.ok = false) (hs : response.status ≠ 401)
    (hp : P.jsonParse (response.body.getD "") = some (.obj kvs)) :
    (callAPI P w endpoint method data).1.storage = w.storage ∧
    (callAPI P w endpoint method data).1.href = w.href ∧
    (∀ s, kvs.lookup "message" = some (.str s) → s ≠ "" →
      (callAPI P w endpoint method data).2 = .rejected ⟨"Error", s⟩) ∧
    (kvs.lookup "message" = none →
      (callAPI P w endpoint method data).2 =
        .rejected ⟨"Error", "Erreur HTTP: " ++ toString response.status⟩) ∧
    (∀ m, kvs.lookup "message" = some m → Json.truthy P m = false →
      (callAPI P w endpoint method data).2 =
        .rejected ⟨"Error", "Erreur HTTP: " ++ toString response.status⟩) ∧
    (∀ m, kvs.lookup "message" = some m → Json.truthy P m = true →
      (callAPI P w endpoint method data).2 = .rejected (newError P m)) := by
  rw [callAPI_http_failure P w endpoint method data response h hf hok hs,
    httpFailure_object P _ response kvs hp]
  refine ⟨rfl, rfl, fun s hm hne => ?_, fun hm => ?_, fun m hm ht => ?_,
    fun m hm ht => ?_⟩
  · simp [hm, Json.truthy, hne, newError_str]
  · simp [hm, newError_str]
  · simp [hm, ht, newError_str]
  · simp [hm, ht]

/-- Witness for C6: the sample server answers `/api/stats` with status 429 and the
message `Quota atteint`. -/
theorem callAPI_structured_error_witness :
    (callAPI (samplePlatform sampleNet) loggedIn "/api/stats" "GET" .null).1.storage
      = loggedIn.storage ∧
    (callAPI (samplePlatform sampleNet) loggedIn "/api/stats" "GET" .null).2
      = .rejected ⟨"Error", "Quota atteint"⟩ :=
  have h := callAPI_structured_error (samplePlatform sampleNet) loggedIn "/api/stats" "GET"
    .null (jsonResponse 429 (.obj [("message", .str "Quota atteint")]))
    [("message", .str "Quota atteint")] (by decide) (by rfl) (by decide) (by decide)
    (by rfl)
  ⟨h.1, h.2.2.1 "Quota atteint" (by rfl) (by decide)⟩

/-! ## Network failures and the single attempt -/

/-- Every invocation of `callAPI` issues at most one `fetch`. -/
theorem callAPI_fetchCount_le {ν : Type} (P : Platform ν) (w : World)
    (endpoint method : String) (data : Json ν) :
    fetchCount (callAPI P w endpoint method data).1.trace ≤ fetchCount w.trace + 1 := by
  cases h : strTruthy (isUserLoggedIn w.storage) with
  | false =>
    rw [callAPI_inactive P w endpoint method data h]
    exact Nat.le_succ _
  | true =>
    cases hf : P.fetch (requestOptions P w.storage endpoint method data) with
    | error e =>
      rw [callAPI_fetch_failed P w endpoint method data e h hf, fetchCount_emit_fetch]
    | ok response =>
      by_cases hok : response.ok = true
      · rw [callAPI_success P w endpoint method data response h hf hok]
        simp only
        rw [fetchCount_emit_readJson, fetchCount_emit_fetch]
      · have hok2 : response.ok = false := by simpa using hok
        by_cases hs : response.status = 401
        · rw [callAPI_unauthorized P w endpoint method data response h hf hs]
          simp [fetchCount, List.filter_append]
        · rw [callAPI_http_failure P w endpoint method data response h hf hok2 hs,
            (httpFailure_effects P _ response).2.2.1, fetchCount_emit_fetch]

/-- C7: with an active session, when `fetch` fails with the error `e`, `callAPI` rejects
with that same `e` and exactly one request was issued; and whatever the outcome, one
invocation issues at most one request. -/
theorem callAPI_network_failure {ν : Type} (P : Platform ν) (w : World)
    (endpoint method : String) (data : Json ν) :
    (∀ e, strTruthy (isUserLoggedIn w.storage) = true →
      P.fetch (requestOptions P w.storage endpoint method data) = .error e →
      (callAPI P w endpoint method data).2 = .rejected e ∧
      fetchCount (callAPI P w endpoint method data).1.trace = fetchCount w.trace + 1) ∧
    fetchCount (callAPI P w endpoint method data).1.trace ≤ fetchCount w.trace + 1 := by
  refine ⟨fun e h hf => ?_, callAPI_fetchCount_le P w endpoint method data⟩
  rw [callAPI_fetch_failed P w endpoint method data e h hf]
  exact ⟨rfl, fetchCount_emit_fetch w _⟩

/-- Witness for C7: `/generate` is unreachable on the sample network. -/
theorem callAPI_network_failure_witness :
    (callAPI (samplePlatform sampleNet) loggedIn "/generate" "GET" .null).2
      = .rejected ⟨"TypeError", "Failed to fetch"⟩ ∧
    fetchCount (callAPI (samplePlatform sampleNet) loggedIn "/generate" "GET" .null).1.trace
      = fetchCount loggedIn.trace + 1 :=
  (callAPI_network_failure (samplePlatform sampleNet) loggedIn "/generate" "GET" .null).1
    ⟨"TypeError", "Failed to fetch"⟩ (by decide) (by rfl)

/-! ## Success -/

/-- C8: with an active session, a response with a success status whose body is JSON makes
`callAPI` resolve to exactly the parsed body, with storage and location unchanged. -/
theorem callAPI_success_body {ν : Type} (P : Platform ν) (w : World)
    (endpoint method : String) (data : Json ν) (response : Response) (v : Json ν)
    (h : strTruthy (isUserLoggedIn w.storage) = true)
    (hf : P.fetch (requestOptions P w.storage endpoint method data) = .ok response)
    (hok : response.ok = true)
    (hp : P.jsonParse (response.body.getD "") = some v) :
    (callAPI P w endpoint method data).2 = .resolved v ∧
    (callAPI P w endpoint method data).1.storage = w.storage ∧
    (callAPI P w endpoint method data).1.href = w.href := by
  rw [callAPI_success P w endpoint method data response h hf hok]
  simp [json_first_read, hp, World.emit]

/-- Witness for C8: the status call on the sample server. -/
theorem callAPI_success_body_witness :
    (callAPI (samplePlatform sampleNet) loggedIn "/api/status" "GET" .null).2
      = .resolved sampleStatus ∧
    (callAPI (samplePlatform sampleNet) loggedIn "/api/status" "GET" .null).1.storage
      = loggedIn.storage ∧
    (callAPI (samplePlatform sampleNet) loggedIn "/api/status" "GET" .null).1.href
      = "/dashboard" :=
  callAPI_success_body (samplePlatform sampleNet) loggedIn "/api/status" "GET" .null
    (jsonResponse 200 sampleStatus) sampleStatus (by decide) (by rfl) (by decide) (by rfl)

/-! ## Logout -/

/-- C10: whatever the logout request does (success, HTTP error, network failure, 401, or
no session to begin with), `logoutUser` ends with `auth_token` and `user` removed from
storage and the location set to `/`, and its promise resolves. -/
theorem logoutUser_clears_session {ν : Type} (P : Platform ν) (w : World) :
    getItem (logoutUser P w).1.storage "auth_token" = none ∧
    getItem (logoutUser P w).1.storage "user" = none ∧
    (logoutUser P w).1.href = "/" ∧
    (logoutUser P w).2 = .resolved () := by
  unfold logoutUser
  rcases hc : callAPI P w "/api/logout" "POST" .null with ⟨w1, out⟩
  cases out with
  | resolved v => exact ⟨(session_cleared _).1, (session_cleared _).2, rfl, rfl⟩
  | rejected e => exact ⟨(session_cleared _).1, (session_cleared _).2, rfl, rfl⟩

/-! ## The log container -/

theorem elementCount_elements (items : List LogItem) :
    elementCount (items.map LogNode.element) = items.length := by
  induction items with
  | nil => rfl
  | cons item rest ih =>
    simp only [elementCount, List.map_cons, List.filter_cons, if_true, List.length_cons]
      at ih ⊢
    rw [ih]

theorem addLog_of_container (dom : Dom) (now : Clock) (message type : String)
    (nodes : List LogNode) (h : dom.realtimeLogs = some nodes) :
    (addLog dom now message type).realtimeLogs =
      some (if elementCount (.element (logEntry now message type) :: nodes) > 50
            then (LogNode.element (logEntry now message type) :: nodes).dropLast
            else .element (logEntry now message type) :: nodes) := by
  simp [addLog, h]

/-- On a container whose child nodes are all elements, `addLog` puts the new item first;
with fewer than 50 old items all of them stay, and with 50 old items the last one is
removed, which leaves the new item and the first 49 old ones. -/
theorem addLog_front_and_evict (dom : Dom) (now : Clock) (message type : String)
    (items : List LogItem) (h : dom.realtimeLogs = some (items.map LogNode.element))
    (hn : items.length ≤ 50) :
    (items.length < 50 →
      (addLog dom now message type).realtimeLogs
        = some ((logEntry now message type :: items).map LogNode.element)) ∧
    (items.length = 50 →
      (addLog dom now message type).realtimeLogs
        = some ((logEntry now message type :: items.take 49).map LogNode.element) ∧
      (logEntry now message type :: items.take 49).length = 50 ∧
      items.take 49 = items.dropLast) := by
  rw [addLog_of_container dom now message type _ h]
  have hcount : elementCount (.element (logEntry now message type) :: items.map .element)
      = items.length + 1 := by
    have := elementCount_elements (logEntry now message type :: items)
    simpa using this
  rw [hcount]
  constructor
  · intro hlt
    have : ¬ (items.length + 1 > 50) := by omega
    simp [this]
  · intro heq
    have hgt : items.length + 1 > 50 := by omega
    have hne : items ≠ [] := by
      intro hnil
      simp [hnil] at heq
    have hdrop : items.dropLast = items.take 49 := by
      rw [List.dropLast_eq_take, heq]
    refine ⟨?_, ?_, hdrop.symm⟩
    · simp only [hgt, if_true]
      have hmap : (LogNode.element (logEntry now message type) :: items.map .element)
          = (logEntry now message type :: items).map LogNode.element := rfl
      rw [hmap, ← List.map_dropLast, List.dropLast_cons_of_ne_nil hne, hdrop]
    · simp [List.length_take, heq]

/-- While only `addLog` writes to a container whose child nodes are all elements, the
nodes stay elements and a container of at most 50 items keeps at most 50 items. -/
theorem addLog_keeps_cap (dom : Dom) (now : Clock) (message type : String)
    (items : List LogItem) (h : dom.realtimeLogs = some (items.map LogNode.element))
    (hn : items.length ≤ 50) :
    ∃ kept : List LogItem,
      (addLog dom now message type).realtimeLogs = some (kept.map LogNode.element) ∧
      kept.length ≤ 50 := by
  have hfe := addLog_front_and_evict dom now message type items h hn
  by_cases hlt : items.length < 50
  · refine ⟨logEntry now message type :: items, hfe.1 hlt, ?_⟩
    simp only [List.length_cons]
    omega
  · have heq : items.length = 50 := by omega
    refine ⟨logEntry now message type :: items.take 49, (hfe.2 heq).1, ?_⟩
    rw [(hfe.2 heq).2.1]

set_option maxRecDepth 100000 in
/-- C11 fails on the code: from an empty `realtimeLogs` container, `loadSystemLogs` with a
server holding 51 log lines leaves 51 items in the container, and a following `addLog`,
which removes a single item after inserting one, leaves 51 again. -/
theorem loadSystemLogs_exceeds_cap :
    samplePage.dom.realtimeLogs = some [] ∧
    (loadSystemLogs (sampleHost oddNet) samplePage).dom.realtimeLogs.map List.length
      = some 51 ∧
    (loadSystemLogs (sampleHost oddNet) samplePage).dom.realtimeLogs.map elementCount
      = some 51 ∧
    (addLog (loadSystemLogs (sampleHost oddNet) samplePage).dom morning "Journaux actualisés"
      "info").realtimeLogs.map List.length = some 51 ∧
    (addLog (loadSystemLogs (sampleHost oddNet) samplePage).dom morning "Journaux actualisés"
      "info").realtimeLogs.map elementCount = some 51 := by
  refine ⟨rfl, ?_, ?_, ?_, ?_⟩
  · rfl
  · rfl
  · rfl
  · rfl

/-- C12 fails on the code: on a container of 50 log entries followed by a white-space text
node, `addLog` inserts the new entry, finds 51 element children, and removes `lastChild`,
which is the text node.  All 50 old entries stay: the container holds 51 entries and the
oldest one is not evicted. -/
theorem addLog_removes_text_node :
    elementCount (List.replicate 50 (LogNode.element (.text "line")) ++ [.textNode "\n"])
      = 50 ∧
    (addLog
      { sampleDom with realtimeLogs := some (
          List.replicate 50 (LogNode.element (.text "line")) ++ [.textNode "\n"]) }
      morning "Session utilisateur active" "info").realtimeLogs
      = some (.element (.html "✓ [09:30:05] Session utilisateur active") ::
          List.replicate 50 (LogNode.element (.text "line"))) ∧
    (addLog
      { sampleDom with realtimeLogs := some (
          List.replicate 50 (LogNode.element (.text "line")) ++ [.textNode "\n"]) }
      morning "Session utilisateur active" "info").realtimeLogs.map elementCount
      = some 51 := by
  refine ⟨by decide, ?_, ?_⟩
  · rfl
  · rfl

/-! ## Missing elements -/

/-- C16: when the element an operation targets is missing, the operation is skipped and
leaves the page as it was: `showResult` on an unknown id, `addLog` without `realtimeLogs`,
and `updateContentTable` without `contentTable`, which then issues no request (the browser
state, trace included, is unchanged).  None of them has a way to throw on this path. -/
theorem missing_element_skips {ν : Type} (H : Host ν) (pg : Page) :
    (∀ (elementId : String) (message : Json ν) (isError : Bool),
      pg.dom.results.lookup elementId = none →
      showResult H pg.dom elementId message isError = pg.dom) ∧
    (∀ (now : Clock) (message type : String),
      pg.dom.realtimeLogs = none → addLog pg.dom now message type = pg.dom) ∧
    (pg.dom.contentTable = none →
      updateContentTable H pg = pg ∧
      fetchCount (updateContentTable H pg).world.trace = fetchCount pg.world.trace) := by
  refine ⟨fun elementId message isError h => ?_, fun now message type h => ?_, fun h => ?_⟩
  · simp [showResult, h]
  · simp [addLog, h]
  · have hu : updateContentTable H pg = pg := by simp [updateContentTable, h]
    exact ⟨hu, by rw [hu]⟩

/-- Witness for C16: the three operations on a page without any of the elements. -/
theorem missing_element_skips_witness :
    showResult (sampleHost sampleNet) bareDom "actionResult" (.str "ok") false = bareDom ∧
    addLog bareDom morning "Dashboard chargé" "info" = bareDom ∧
    updateContentTable (sampleHost sampleNet) ⟨loggedIn, bareDom, []⟩
      = ⟨loggedIn, bareDom, []⟩ :=
  have h := missing_element_skips (sampleHost sampleNet) ⟨loggedIn, bareDom, []⟩
  ⟨h.1 "actionResult" (.str "ok") false rfl, h.2.1 morning "Dashboard chargé" "info" rfl,
    (h.2.2 rfl).1⟩

/-! ## Status cards -/

theorem isString_eq_true_iff {ν : Type} (v : Option (Json ν)) (text : String) :
    isString v text = true ↔ v = some (.str text) := by
  unfold isString
  split
  · next s => simp
  · next hne =>
    constructor
    · intro h; exact absurd h (by simp)
    · intro h; exact absurd h (hne text)

theorem get_of_ne_null {ν : Type} (P : Platform ν) (v : Json ν) (key : String)
    (h : v ≠ .null) : ∃ r, Json.get P v key = .ok r := by
  cases v with
  | null => exact absurd rfl h
  | obj kvs => exact ⟨_, rfl⟩
  | bool b => exact ⟨_, rfl⟩
  | num n => exact ⟨_, rfl⟩
  | str s => exact ⟨_, rfl⟩
  | arr xs => exact ⟨_, rfl⟩

theorem ne_null_of_truthy {ν : Type} (P : Platform ν) (v : Json ν)
    (h : Json.truthy P v = true) : v ≠ .null := by
  intro hv
  rw [hv] at h
  exact absurd h (by simp [Json.truthy])

/-- The cards written by `updateSystemStatus` when the first two cards have a
`.stat-value` and the payload is not `null`. -/
theorem updateSystemStatus_cards {ν : Type} (P : Platform ν) (dom : Dom) (statusData : Json ν)
    (status autoMode : Option (Json ν)) (c0 c1 : String) (c2 : Option String)
    (rest : List (Option String))
    (hcards : dom.statCards = some c0 :: some c1 :: c2 :: rest)
    (hs : Json.get P statusData "status" = .ok status)
    (ha : Json.get P statusData "auto_mode" = .ok autoMode) :
    updateSystemStatus P dom statusData =
      .ok { dom with statCards := (
        some (statusIndicator
          (if isString status "online" then "status-online" else "status-warning")
          (if isString status "online" then "En ligne" else "Hors ligne")) ::
        some (statusIndicator
          (if optTruthy P autoMode then "status-active" else "status-warning")
          (if optTruthy P autoMode then "Activé" else "Désactivé")) ::
        (match c2 with
          | some _ => some (statusIndicator "status-online" "/generate, /api/publish")
          | none => none) :: rest) } := by
  unfold updateSystemStatus
  cases c2 <;>
    simp [hcards, writeCard, statusMarkup, autoModeMarkup, hs, ha, List.set]

/-- C13, as stated, fails in two ways.  A payload whose `auto_mode` is the text `off`, which
is not `true`, makes the second card show `Activé`; and on a page whose three cards have no
`.stat-value` element, nothing is shown for a payload that is online with `auto_mode`
true. -/
theorem updateSystemStatus_truthy_auto_mode :
    updateSystemStatus (samplePlatform sampleNet) sampleDom
      (.obj [("status", .str "online"), ("auto_mode", .str "off")]) =
      .ok { sampleDom with statCards := [
         some (statusIndicator "status-online" "En ligne"),
         some (statusIndicator "status-active" "Activé"),
         some (statusIndicator "status-online" "/generate, /api/publish"), none] } ∧
    updateSystemStatus (samplePlatform sampleNet)
      { sampleDom with statCards := [none, none, none] } sampleStatus =
      .ok { sampleDom with statCards := [none, none, none] } :=
  ⟨rfl, rfl⟩

/-- C13, amended: on a page with at least three stat cards whose first two cards contain a
`.stat-value` element, `updateSystemStatus` on a payload that is not `null` shows in the
first card the online indicator (`status-online` dot, `En ligne`) if and only if `status`
is the string `online`, and the offline indicator (`Hors ligne`) otherwise; in the second
card it shows `Activé` if and only if `auto_mode` is truthy, and `Désactivé` otherwise, in
particular for `auto_mode` false. -/
theorem updateSystemStatus_indicators {ν : Type} (P : Platform ν) (dom : Dom)
    (statusData : Json ν) (status autoMode : Option (Json ν)) (v0 v1 : String)
    (hlen : dom.statCards.length ≥ 3)
    (h0 : dom.statCards.get? 0 = some (some v0))
    (h1 : dom.statCards.get? 1 = some (some v1))
    (hs : Json.get P statusData "status" = .ok status)
    (ha : Json.get P statusData "auto_mode" = .ok autoMode) :
    ∃ dom', updateSystemStatus P dom statusData = .ok dom' ∧
      (status = some (.str "online") →
        dom'.statCards.get? 0 = some (some (statusIndicator "status-online" "En ligne"))) ∧
      (status ≠ some (.str "online") →
        dom'.statCards.get? 0 = some (some (statusIndicator "status-warning" "Hors ligne"))) ∧
      (optTruthy P autoMode = true →
        dom'.statCards.get? 1 = some (some (statusIndicator "status-active" "Activé"))) ∧
      (optTruthy P autoMode = false →
        dom'.statCards.get? 1 = some (some (statusIndicator "status-warning" "Désactivé"))) ∧
      (autoMode = some (.bool false) →
        dom'.statCards.get? 1 = some (some (statusIndicator "status-warning" "Désactivé"))) ∧
      statusIndicator "status-online" "En ligne" ≠ statusIndicator "status-warning" "Hors ligne" ∧
      statusIndicator "status-active" "Activé" ≠ statusIndicator "status-warning" "Désactivé" := by
  obtain ⟨c0, c1, c2, rest, hcards⟩ :
      ∃ c0 c1 c2 rest, dom.statCards = some c0 :: some c1 :: c2 :: rest := by
    match hc : dom.statCards, hlen, h0, h1 with
    | a :: b :: c :: rest, _, h0, h1 =>
      simp only [List.get?_cons_zero, List.get?_cons_succ, Option.some.injEq] at h0 h1
      exact ⟨v0, v1, c, rest, by rw [h0, h1]⟩
    | [], hl, _, _ => simp at hl
    | [_], hl, _, _ => simp at hl
    | [_, _], hl, _, _ => simp at hl
  refine ⟨_, updateSystemStatus_cards P dom statusData status autoMode c0 c1 c2 rest hcards
    hs ha, ?_, ?_, ?_, ?_, ?_, by decide, by decide⟩
  · intro h
    have : isString status "online" = true := (isString_eq_true_iff _ _).2 h
    simp [this]
  · intro h
    have : isString status "online" = false := by
      cases hb : isString status "online" with
      | false => rfl
      | true => exact absurd ((isString_eq_true_iff _ _).1 hb) h
    simp [this]
  · intro h
    simp [h]
  · intro h
    simp [h]
  · intro h
    simp [h, optTruthy, Json.truthy]

/-- Witness for C13: the status payload of the sample server, with `auto_mode` true. -/
theorem updateSystemStatus_indicators_witness :
    ∃ dom', updateSystemStatus (samplePlatform sampleNet) sampleDom sampleStatus = .ok dom' ∧
      dom'.statCards.get? 0 = some (some (statusIndicator "status-online" "En ligne")) ∧
      dom'.statCards.get? 1 = some (some (statusIndicator "status-active" "Activé")) := by
  obtain ⟨dom', h, hon, _, hact, _⟩ :=
    updateSystemStatus_indicators (samplePlatform sampleNet) sampleDom sampleStatus
      (some (.str "online")) (some (.bool true)) "--" "--" (by decide) rfl rfl rfl rfl
  exact ⟨dom', h, hon rfl, hact rfl⟩

/-! ## Publication result -/

theorem callAPI_resolved_body {ν : Type} (P : Platform ν) (w : World)
    (endpoint method : String) (data : Json ν) (response : Response) (v : Json ν)
    (h : strTruthy (isUserLoggedIn w.storage) = true)
    (hf : P.fetch (requestOptions P w.storage endpoint method data) = .ok response)
    (hok : response.ok = true)
    (hp : P.jsonParse (response.body.getD "") = some v) :
    callAPI P w endpoint method data =
      ((w.emit (.fetch (requestOptions P w.storage endpoint method data))).emit .readJson,
        .resolved v) := by
  rw [callAPI_success P w endpoint method data response h hf hok]
  simp [json_first_read, hp]

theorem lookup_map_replace (l : List (String × ResultBox)) (elementId key : String)
    (box : ResultBox) :
    (l.map (fun kv => if kv.1 == elementId then (kv.1, box) else kv)).lookup key =
      if key = elementId then (l.lookup key).map (fun _ => box) else l.lookup key := by
  induction l with
  | nil => simp
  | cons kv rest ih =>
    obtain ⟨k0, b0⟩ := kv
    rw [List.map_cons]
    by_cases he : k0 = elementId
    · have hc : (k0 == elementId) = true := by simpa using he
      simp only [hc, if_true]
      rw [List.lookup_cons, List.lookup_cons]
      cases hk : (key == k0) with
      | true =>
        have hke : key = elementId := (beq_iff_eq.1 hk).trans he
        simp [hke]
      | false => exact ih
    · have hc : (k0 == elementId) = false := by simpa using he
      simp only [hc, Bool.false_eq_true, if_false]
      rw [List.lookup_cons, List.lookup_cons]
      cases hk : (key == k0) with
      | true =>
        have hke : ¬ key = elementId := fun e => he ((beq_iff_eq.1 hk).symm.trans e)
        simp [hke]
      | false => exact ih

/-- The text of a result box after `showResult` with a string message. -/
theorem showResult_text {ν : Type} (H : Host ν) (dom : Dom) (elementId text : String)
    (isError : Bool) (key : String) :
    ((showResult H dom elementId (.str text) isError).results.lookup key).map ResultBox.text =
      if key = elementId then (dom.results.lookup key).map (fun _ => text)
      else (dom.results.lookup key).map ResultBox.text := by
  unfold showResult
  cases hl : dom.results.lookup elementId with
  | none =>
    by_cases hk : key = elementId
    · simp [hk, hl]
    · simp [hk]
  | some b =>
    simp only [lookup_map_replace]
    by_cases hk : key = elementId
    · simp [hk, hl]
    · simp [hk]

theorem showResult_lookup_other {ν : Type} (H : Host ν) (dom : Dom) (elementId : String)
    (message : Json ν) (isError : Bool) (key : String) (hk : key ≠ elementId) :
    (showResult H dom elementId message isError).results.lookup key
      = dom.results.lookup key := by
  unfold showResult
  cases hl : dom.results.lookup elementId with
  | none => rfl
  | some b =>
    simp only [lookup_map_replace]
    simp [hk]

theorem addLog_results (dom : Dom) (now : Clock) (message type : String) :
    (addLog dom now message type).results = dom.results := by
  unfold addLog
  cases dom.realtimeLogs <;> rfl

theorem setPublishButton_results (dom : Dom) (b : Button) :
    (setPublishButton dom b).results = dom.results := by
  unfold setPublishButton
  cases dom.publishContentBtn with
  | some _ => rfl
  | none => cases dom.publishNowBtn <;> rfl

/-- The DOM after the success branch of `publishContent`, once the two interpolations of
the action text have been converted. -/
theorem publishSucceeded_ok {ν : Type} (H : Host ν) (dom : Dom) (now : Clock)
    (kvs : List (String × Json ν)) (messageText countText : String)
    (hm : orDefault H.toPlatform (kvs.lookup "message") "Publication effectuée"
      = .ok messageText)
    (hc : orDefault H.toPlatform (kvs.lookup "published_count") "0" = .ok countText) :
    publishSucceeded H dom now (.obj kvs) =
      (addLog
        (showResult H
          (showResult H dom "publishResult" (.str (H.jsonStringifyIndented (.obj kvs))) false)
          "actionResult"
          (.str ("✅ " ++ messageText ++ " (" ++ countText ++ " publications)")) false)
        now (countText ++ " contenus publiés") "info", none) := by
  simp [publishSucceeded, Json.get, hm, hc]

/-- The text of `actionResult` after a successful publication. -/
theorem publishContent_text {ν : Type} (H : Host ν) (pg : Page) (start later : Clock)
    (btn : Button) (response : Response) (kvs : List (String × Json ν)) (box : ResultBox)
    (messageText countText : String)
    (hb : publishButton pg.dom = some btn)
    (h : strTruthy (isUserLoggedIn pg.world.storage) = true)
    (hf : H.fetch (requestOptions H.toPlatform pg.world.storage "/api/publish" "POST" .null)
      = .ok response)
    (hok : response.ok = true)
    (hp : H.jsonParse (response.body.getD "") = some (.obj kvs))
    (hbox : pg.dom.results.lookup "actionResult" = some box)
    (hm : orDefault H.toPlatform (kvs.lookup "message") "Publication effectuée"
      = .ok messageText)
    (hc : orDefault H.toPlatform (kvs.lookup "published_count") "0" = .ok countText) :
    ((publishContent H pg start later).dom.results.lookup "actionResult").map ResultBox.text
      = some ("✅ " ++ messageText ++ " (" ++ countText ++ " publications)") := by
  unfold publishContent
  simp only [hb, callAPI_resolved_body H.toPlatform pg.world "/api/publish" "POST" .null
    response (.obj kvs) h hf hok hp, Json.truthy, if_true,
    publishSucceeded_ok H _ later kvs messageText countText hm hc]
  simp only [setPublishButton_results, addLog_results, showResult_text, if_true]
  rw [showResult_lookup_other H _ "publishResult" _ false "actionResult" (by decide),
    addLog_results, setPublishButton_results, hbox]
  rfl

theorem orDefault_text {ν : Type} (P : Platform ν) (s fallback : String) :
    orDefault P (some (.str s)) fallback = .ok (if s = "" then fallback else s) := by
  by_cases h : s = "" <;> simp [orDefault, Json.truthy, Json.toJsString, h]

theorem orDefault_number {ν : Type} (P : Platform ν) (n : ν) (fallback : String) :
    orDefault P (some (.num n)) fallback =
      .ok (if P.numberToBoolean n then P.numberToString n else fallback) := by
  cases h : P.numberToBoolean n <;> simp [orDefault, Json.truthy, Json.toJsString, h]

/-- C14, as stated, fails: for the successful response with `message` the empty string and
`published_count` 3, the message is present, yet the text rendered in `actionResult` uses
the default message. -/
theorem publishContent_empty_message :
    oddNet (requestOptions (sampleHost oddNet).toPlatform samplePage.world.storage
      "/api/publish" "POST" .null)
      = .ok ⟨200, some "\x7b\"message\":\"\",\"published_count\":3\x7d"⟩ ∧
    pageParse "\x7b\"message\":\"\",\"published_count\":3\x7d"
      = some (.obj [("message", .str ""), ("published_count", .num 3)]) ∧
    ((publishContent (sampleHost oddNet) samplePage morning morning).dom.results.lookup
      "actionResult").map ResultBox.text
      = some "✅ Publication effectuée (3 publications)" :=
  ⟨rfl, rfl, rfl⟩

/-- C14, amended: for every successful response to the publish call of `publishContent`
that is a JSON object whose `message` is a string or absent and whose `published_count` is
a number or absent, the text rendered in `actionResult` (when that element exists) is
`✅ <message> (<published_count> publications)`, with the message defaulting to
`Publication effectuée` when absent or empty and the count to 0 when absent or falsy. -/
theorem publishContent_action_result {ν : Type} (H : Host ν) (pg : Page)
    (start later : Clock) (btn : Button) (response : Response)
    (kvs : List (String × Json ν)) (box : ResultBox)
    (hb : publishButton pg.dom = some btn)
    (h : strTruthy (isUserLoggedIn pg.world.storage) = true)
    (hf : H.fetch (requestOptions H.toPlatform pg.world.storage "/api/publish" "POST" .null)
      = .ok response)
    (hok : response.ok = true)
    (hp : H.jsonParse (response.body.getD "") = some (.obj kvs))
    (hbox : pg.dom.results.lookup "actionResult" = some box)
    (hm : kvs.lookup "message" = none ∨ ∃ s, kvs.lookup "message" = some (.str s))
    (hc : kvs.lookup "published_count" = none ∨
      ∃ n, kvs.lookup "published_count" = some (.num n)) :
    ((publishContent H pg start later).dom.results.lookup "actionResult").map ResultBox.text
      = some ("✅ " ++
          (match kvs.lookup "message" with
            | some (.str s) => if s = "" then "Publication effectuée" else s
            | _ => "Publication effectuée") ++
          " (" ++
          (match kvs.lookup "published_count" with
            | some (.num n) => if H.numberToBoolean n then H.numberToString n else "0"
            | _ => "0") ++
          " publications)") := by
  apply publishContent_text H pg start later btn response kvs box _ _ hb h hf hok hp hbox
  · rcases hm with hm | ⟨s, hm⟩
    · rw [hm]; rfl
    · rw [hm]; exact orDefault_text _ s _
  · rcases hc with hc | ⟨n, hc⟩
    · rw [hc]; rfl
    · rw [hc]; exact orDefault_number _ n _

/-- Witness for C14: the response with message `Posted` and `published_count` 3. -/
theorem publishContent_action_result_witness :
    ((publishContent (sampleHost pageNet) samplePage morning morning).dom.results.lookup
      "actionResult").map ResultBox.text = some "✅ Posted (3 publications)" :=
  publishContent_action_result (sampleHost pageNet) samplePage morning morning
    { text := "Publier", loading := false, disabled := false }
    (jsonResponse 200 samplePublished)
    [("message", .str "Posted"), ("published_count", .num 3)] emptyBox
    rfl (by decide) rfl (by decide) rfl rfl (Or.inr ⟨"Posted", rfl⟩) (Or.inr ⟨3, rfl⟩)

/-! ## The refresh callback -/

theorem writeCard_ok (cards : List (Option String)) (i : Nat) (markup : String) :
    ∃ cards', writeCard cards i (fun _ => .ok markup) = .ok cards' := by
  unfold writeCard
  split
  · exact ⟨_, rfl⟩
  · exact ⟨_, rfl⟩

/-- On a payload that is not `null`, `updateSystemStatus` does not throw and writes nothing
but the cards. -/
theorem updateSystemStatus_ok {ν : Type} (P : Platform ν) (dom : Dom) (statusData : Json ν)
    (h : statusData ≠ .null) :
    ∃ cards, updateSystemStatus P dom statusData = .ok { dom with statCards := cards } := by
  obtain ⟨status, hs⟩ := get_of_ne_null P statusData "status" h
  obtain ⟨autoMode, ha⟩ := get_of_ne_null P statusData "auto_mode" h
  unfold updateSystemStatus
  split
  · simp only [statusMarkup, hs, autoModeMarkup, ha]
    obtain ⟨c1, h1⟩ := writeCard_ok dom.statCards 0 (statusIndicator
      (if isString status "online" then "status-online" else "status-warning")
      (if isString status "online" then "En ligne" else "Hors ligne"))
    obtain ⟨c2, h2⟩ := writeCard_ok c1 1 (statusIndicator
      (if optTruthy P autoMode then "status-active" else "status-warning")
      (if optTruthy P autoMode then "Activé" else "Désactivé"))
    obtain ⟨c3, h3⟩ := writeCard_ok c2 2
      (statusIndicator "status-online" "/generate, /api/publish")
    rw [h1]
    simp only
    rw [h2]
    simp only
    rw [h3]
    exact ⟨c3, rfl⟩
  · exact ⟨dom.statCards, rfl⟩

theorem addLog_statCards (dom : Dom) (now : Clock) (message type : String) :
    (addLog dom now message type).statCards = dom.statCards := by
  unfold addLog
  cases dom.realtimeLogs <;> rfl

/-- C17, as stated, fails: the sample status endpoint answers the payload `false`, which is
not `null`; the callback does not push it to `updateSystemStatus`, and the cards keep
their content, whereas `updateSystemStatus` on that payload would show `Hors ligne` and
`Désactivé`. -/
theorem periodicRefresh_falsy_payload :
    (callAPI (sampleHost oddNet).toPlatform samplePage.world "/api/status" "GET" .null).2
      = .resolved (.bool false) ∧
    (periodicRefresh (sampleHost oddNet) samplePage morning 0).dom.statCards
      = [some "--", some "--", some "--", none] ∧
    updateSystemStatus (sampleHost oddNet).toPlatform samplePage.dom (.bool false)
      = .ok { sampleDom with statCards := [
          some (statusIndicator "status-warning" "Hors ligne"),
          some (statusIndicator "status-warning" "Désactivé"),
          some (statusIndicator "status-online" "/generate, /api/publish"), none] } :=
  ⟨rfl, rfl, rfl⟩

/-- C17, amended: a run of the periodic refresh callback (period `refreshPeriod`, 30000 ms)
makes one `callAPI` call, a `GET` of `/api/status`: the browser state after the run is the
one after that call.  When the call resolves to a truthy payload, the payload is pushed to
`updateSystemStatus` (then an activity line is logged); when it resolves to a falsy
payload, the cards are left as they are; when it is rejected, the callback swallows the
error and changes neither the cards nor the log. -/
theorem periodicRefresh_run {ν : Type} (H : Host ν) (pg : Page) (now : Clock) (pick : Fin 4) :
    refreshPeriod = 30000 ∧
    (periodicRefresh H pg now pick).world
      = (callAPI H.toPlatform pg.world "/api/status" "GET" .null).1 ∧
    (∀ e, (callAPI H.toPlatform pg.world "/api/status" "GET" .null).2 = .rejected e →
      (periodicRefresh H pg now pick).dom = pg.dom) ∧
    (∀ v, (callAPI H.toPlatform pg.world "/api/status" "GET" .null).2 = .resolved v →
      Json.truthy H.toPlatform v = true →
      ∃ dom1, updateSystemStatus H.toPlatform pg.dom v = .ok dom1 ∧
        (periodicRefresh H pg now pick).dom
          = addLog dom1 now (activities.getD pick.val "") "info" ∧
        (periodicRefresh H pg now pick).dom.statCards = dom1.statCards) ∧
    (∀ v, (callAPI H.toPlatform pg.world "/api/status" "GET" .null).2 = .resolved v →
      Json.truthy H.toPlatform v = false →
      (periodicRefresh H pg now pick).dom.statCards = pg.dom.statCards) := by
  unfold periodicRefresh
  rcases hc : callAPI H.toPlatform pg.world "/api/status" "GET" .null with ⟨w, out⟩
  cases out with
  | rejected e0 =>
    refine ⟨rfl, rfl, fun e _ => rfl, fun v hv _ => ?_, fun v hv _ => ?_⟩
    · exact absurd hv (by simp)
    · exact absurd hv (by simp)
  | resolved status =>
    refine ⟨rfl, ?_, fun e he => ?_, fun v hv ht => ?_, fun v hv ht => ?_⟩
    · simp only
      split
      · split <;> rfl
      · rfl
    · exact absurd he (by simp)
    · have hv' : status = v := by simpa using hv
      subst hv'
      obtain ⟨cards, hu⟩ := updateSystemStatus_ok H.toPlatform pg.dom status
        (ne_null_of_truthy H.toPlatform status ht)
      refine ⟨_, hu, ?_, ?_⟩
      · simp [ht, hu]
      · simp [ht, hu, addLog_statCards]
    · have hv' : status = v := by simpa using hv
      subst hv'
      simp [ht, addLog_statCards]

/-- Witness for C17: a run against the sample server, whose status payload is online. -/
theorem periodicRefresh_run_witness :
    ∃ dom1, updateSystemStatus (sampleHost sampleNet).toPlatform samplePage.dom sampleStatus
        = .ok dom1 ∧
      (periodicRefresh (sampleHost sampleNet) samplePage morning 2).dom
        = addLog dom1 morning "Synchronisation avec le module IA Python" "info" ∧
      (periodicRefresh (sampleHost sampleNet) samplePage morning 2).dom.statCards
        = dom1.statCards :=
  (periodicRefresh_run (sampleHost sampleNet) samplePage morning 2).2.2.2.1 sampleStatus
    rfl rfl

/-! ## Canned replies and the chat fallback -/

theorem blank_chars (s : String) (h : jsTrim s = "") :
    ∀ c ∈ s.data, isJsWhiteSpace c = true := by
  unfold jsTrim at h
  have h1 : (((s.data.dropWhile isJsWhiteSpace).reverse).dropWhile isJsWhiteSpace).reverse
      = [] := by
    have := congrArg String.data h
    simpa using this
  have h2 : ((s.data.dropWhile isJsWhiteSpace).reverse).dropWhile isJsWhiteSpace = [] :=
    List.reverse_eq_nil_iff.1 h1
  have h3 : ∀ c ∈ s.data.dropWhile isJsWhiteSpace, isJsWhiteSpace c = true := by
    intro c hc
    exact (List.dropWhile_eq_nil_iff.1 h2) c (List.mem_reverse.2 hc)
  have h4 : s.data.dropWhile isJsWhiteSpace = [] := by
    cases hd : s.data.dropWhile isJsWhiteSpace with
    | nil => rfl
    | cons x xs =>
      have hne : s.data.dropWhile isJsWhiteSpace ≠ [] := by simp [hd]
      have hnot := List.head_dropWhile_not isJsWhiteSpace s.data hne
      have hx : isJsWhiteSpace ((s.data.dropWhile isJsWhiteSpace).head hne) = true :=
        h3 _ (List.head_mem hne)
      rw [hx] at hnot
      exact absurd hnot (by simp)
  exact List.dropWhile_eq_nil_iff.1 h4

theorem includesChars_head_mem (text part : List Char) (c : Char)
    (h : includesChars text (c :: part) = true) : c ∈ text := by
  induction text with
  | nil => simp [includesChars] at h
  | cons d rest ih =>
    simp only [includesChars, Bool.or_eq_true] at h
    rcases h with h | h
    · have hcd : c = d := by
        simp only [List.isPrefixOf, Bool.and_eq_true, beq_iff_eq] at h
        exact h.1
      simp [hcd]
    · exact List.mem_cons_of_mem _ (ih h)

/-- A message whose lower case contains a greeting is not blank. -/
theorem not_blank_of_greeting {ν : Type} (H : Host ν) (message : String)
    (hk : jsIncludes (H.toLowerCase message) "bonjour" = true ∨
      jsIncludes (H.toLowerCase message) "salut" = true ∨
      jsIncludes (H.toLowerCase message) "hello" = true) :
    jsTrim message ≠ "" := by
  intro hb
  have hall := blank_chars message hb
  have hlow : H.toLowerCase message = message := H.toLowerCase_blank message hall
  rw [hlow] at hk
  unfold jsIncludes at hk
  rcases hk with hk | hk | hk
  · have := hall _ (includesChars_head_mem _ _ _ hk)
    exact absurd this (by decide)
  · have := hall _ (includesChars_head_mem _ _ _ hk)
    exact absurd this (by decide)
  · have := hall _ (includesChars_head_mem _ _ _ hk)
    exact absurd this (by decide)

theorem cannedReply_greeting {ν : Type} (H : Host ν) (pick : Fin 4) (message : String)
    (hk : jsIncludes (H.toLowerCase message) "bonjour" = true ∨
      jsIncludes (H.toLowerCase message) "salut" = true ∨
      jsIncludes (H.toLowerCase message) "hello" = true) :
    cannedReply H pick message = replyGreeting := by
  unfold cannedReply
  rcases hk with hk | hk | hk <;> simp [hk]

/-- C15: for every chat message whose lower-cased text contains `bonjour`, `salut` or
`hello`, when the analysis call of `sendChatMessage` is rejected, the function appends the
user message and schedules the fallback once (after 1000 ms); when that timer fires, the
transcript is the old one followed by the user message and exactly one bot message, whose
text is the fixed greeting reply.  No error message is appended. -/
theorem sendChatMessage_fallback_greeting {ν : Type} (H : Host ν) (pg : Page)
    (start later fire : Clock) (pick : Fin 4) (message : String)
    (transcript : List String) (e : JsError)
    (hchat : pg.dom.chatMessages = some transcript)
    (hk : jsIncludes (H.toLowerCase message) "bonjour" = true ∨
      jsIncludes (H.toLowerCase message) "salut" = true ∨
      jsIncludes (H.toLowerCase message) "hello" = true)
    (hrej : (callAPI H.toPlatform pg.world "/api/chat/analyze" "POST"
      (.obj [("question", .str message), ("contexte", .str "dashboard")])).2 = .rejected e) :
    (sendChatMessage H pg start later message).pending
      = pg.pending ++ [.fallbackReply 1000 message] ∧
    (sendChatMessage H pg start later message).dom.chatMessages
      = some (transcript ++ [userMessageMarkup message (chatTime start)]) ∧
    (generateBotResponse H (sendChatMessage H pg start later message).dom fire pick
      message).chatMessages
      = some (transcript ++ [userMessageMarkup message (chatTime start),
          botMessageMarkup replyGreeting (chatTime fire)]) := by
  have hne := not_blank_of_greeting H message hk
  have hsend : sendChatMessage H pg start later message =
      { world := (callAPI H.toPlatform pg.world "/api/chat/analyze" "POST"
          (.obj [("question", .str message), ("contexte", .str "dashboard")])).1
        dom :=
          (match (addUserMessage pg.dom start message).chatInput with
            | some _ => { addUserMessage pg.dom start message with chatInput := some "" }
            | none => addUserMessage pg.dom start message)
        pending := pg.pending ++ [.fallbackReply 1000 message] } := by
    unfold sendChatMessage
    rcases hc : callAPI H.toPlatform pg.world "/api/chat/analyze" "POST"
      (.obj [("question", .str message), ("contexte", .str "dashboard")]) with ⟨w, out⟩
    rw [hc] at hrej
    simp only at hrej
    subst hrej
    simp [hne]
  have hdom : (sendChatMessage H pg start later message).dom.chatMessages
      = some (transcript ++ [userMessageMarkup message (chatTime start)]) := by
    rw [hsend]
    simp only
    cases hci : (addUserMessage pg.dom start message).chatInput <;>
      simp [addUserMessage, hchat]
  refine ⟨by rw [hsend], hdom, ?_⟩
  unfold generateBotResponse
  rw [hdom]
  simp [cannedReply_greeting H pick message hk]

/-- Witness for C15: the message `bonjour` when the analysis endpoint answers 422. -/
theorem sendChatMessage_fallback_greeting_witness :
    (sendChatMessage (sampleHost sampleNet) samplePage morning morning "bonjour").pending
      = [.fallbackReply 1000 "bonjour"] ∧
    (generateBotResponse (sampleHost sampleNet)
      (sendChatMessage (sampleHost sampleNet) samplePage morning morning "bonjour").dom
      morning 0 "bonjour").chatMessages
      = some [userMessageMarkup "bonjour" "09:30", botMessageMarkup replyGreeting "09:30"] :=
  have h := sendChatMessage_fallback_greeting (sampleHost sampleNet) samplePage morning
    morning morning 0 "bonjour" [] ⟨"Error", "[object Object]"⟩ rfl (Or.inl (by decide)) rfl
  ⟨h.1, h.2.2⟩

/-- C18: the reply of `generateBotResponse` is one of ten fixed strings, chosen by the
first keyword group, in the order greeting, generate, publish, status, content, AI, of which
a keyword is a substring of the lower-cased message.  When a keyword occurs the reply does
not depend on the random choice; the random choice among the four generic replies is used
only when no keyword occurs. -/
theorem cannedReply_selection {ν : Type} (H : Host ν) (pick : Fin 4) (message : String) :
    ∀ inc : String → Bool, inc = (fun k => jsIncludes (H.toLowerCase message) k) →
      ([replyGreeting, replyGenerate, replyPublish, replyStatus, replyContent, replyAI] ++
        responses).length = 10 ∧
      cannedReply H pick message ∈
        [replyGreeting, replyGenerate, replyPublish, replyStatus, replyContent, replyAI] ++
          responses ∧
      ((inc "bonjour" || inc "salut" || inc "hello") = true →
        cannedReply H pick message = replyGreeting) ∧
      ((inc "bonjour" || inc "salut" || inc "hello") = false →
        (inc "générer" || inc "génération") = true →
        cannedReply H pick message = replyGenerate) ∧
      ((inc "bonjour" || inc "salut" || inc "hello") = false →
        (inc "générer" || inc "génération") = false →
        (inc "publier" || inc "publication") = true →
        cannedReply H pick message = replyPublish) ∧
      ((inc "bonjour" || inc "salut" || inc "hello") = false →
        (inc "générer" || inc "génération") = false →
        (inc "publier" || inc "publication") = false →
        (inc "statut" || inc "état") = true →
        cannedReply H pick message = replyStatus) ∧
      ((inc "bonjour" || inc "salut" || inc "hello") = false →
        (inc "générer" || inc "génération") = false →
        (inc "publier" || inc "publication") = false →
        (inc "statut" || inc "état") = false →
        (inc "contenu" || inc "post") = true →
        cannedReply H pick message = replyContent) ∧
      ((inc "bonjour" || inc "salut" || inc "hello") = false →
        (inc "générer" || inc "génération") = false →
        (inc "publier" || inc "publication") = false →
        (inc "statut" || inc "état") = false →
        (inc "contenu" || inc "post") = false →
        (inc "ia" || inc "intelligence") = true →
        cannedReply H pick message = replyAI) ∧
      ((inc "bonjour" || inc "salut" || inc "hello") = false →
        (inc "générer" || inc "génération") = false →
        (inc "publier" || inc "publication") = false →
        (inc "statut" || inc "état") = false →
        (inc "contenu" || inc "post") = false →
        (inc "ia" || inc "intelligence") = false →
        cannedReply H pick message = responses.getD pick.val "" ∧
        responses.getD pick.val "" ∈ responses) ∧
      ((inc "bonjour" || inc "salut" || inc "hello" || inc "générer" || inc "génération" ||
          inc "publier" || inc "publication" || inc "statut" || inc "état" ||
          inc "contenu" || inc "post" || inc "ia" || inc "intelligence") = true →
        ∀ other : Fin 4, cannedReply H other message = cannedReply H pick message) := by
  intro inc hinc
  subst hinc
  have hgen : ∀ p : Fin 4, responses.getD p.val "" ∈ responses := by
    intro p
    fin_cases p <;> simp [responses]
  have hcases : ∀ p : Fin 4, cannedReply H p message =
      if (jsIncludes (H.toLowerCase message) "bonjour" ||
          jsIncludes (H.toLowerCase message) "salut" ||
          jsIncludes (H.toLowerCase message) "hello") = true then replyGreeting
      else if (jsIncludes (H.toLowerCase message) "générer" ||
          jsIncludes (H.toLowerCase message) "génération") = true then replyGenerate
      else if (jsIncludes (H.toLowerCase message) "publier" ||
          jsIncludes (H.toLowerCase message) "publication") = true then replyPublish
      else if (jsIncludes (H.toLowerCase message) "statut" ||
          jsIncludes (H.toLowerCase message) "état") = true then replyStatus
      else if (jsIncludes (H.toLowerCase message) "contenu" ||
          jsIncludes (H.toLowerCase message) "post") = true then replyContent
      else if (jsIncludes (H.toLowerCase message) "ia" ||
          jsIncludes (H.toLowerCase message) "intelligence") = true then replyAI
      else responses.getD p.val "" := fun _ => rfl
  simp only [hcases]
  cases h1 : (jsIncludes (H.toLowerCase message) "bonjour" ||
      jsIncludes (H.toLowerCase message) "salut" ||
      jsIncludes (H.toLowerCase message) "hello") <;>
  cases h2 : (jsIncludes (H.toLowerCase message) "générer" ||
      jsIncludes (H.toLowerCase message) "génération") <;>
  cases h3 : (jsIncludes (H.toLowerCase message) "publier" ||
      jsIncludes (H.toLowerCase message) "publication") <;>
  cases h4 : (jsIncludes (H.toLowerCase message) "statut" ||
      jsIncludes (H.toLowerCase message) "état") <;>
  cases h5 : (jsIncludes (H.toLowerCase message) "contenu" ||
      jsIncludes (H.toLowerCase message) "post") <;>
  cases h6 : (jsIncludes (H.toLowerCase message) "ia" ||
      jsIncludes (H.toLowerCase message) "intelligence") <;>
  simp_all [responses]

/-- Witness for C18: a message with `générer` in upper case and `post`; the generate group
comes first, whatever the random choice. -/
theorem cannedReply_selection_witness :
    cannedReply (sampleHost sampleNet) 1 "Comment GÉNÉRER un post ?" = replyGenerate ∧
    ∀ other : Fin 4,
      cannedReply (sampleHost sampleNet) other "Comment GÉNÉRER un post ?"
        = cannedReply (sampleHost sampleNet) 1 "Comment GÉNÉRER un post ?" :=
  have h := cannedReply_selection (sampleHost sampleNet) 1 "Comment GÉNÉRER un post ?"
    (fun k => jsIncludes ((sampleHost sampleNet).toLowerCase "Comment GÉNÉRER un post ?") k)
    rfl
  ⟨h.2.2.2.1 (by decide) (by decide), h.2.2.2.2.2.2.2.2.2 (by decide)⟩

/-! ## Content summary -/

theorem excerpt_text {ν : Type} (H : Host ν) (limit : Nat) (t : String) :
    excerpt H limit (some (.str t)) =
      .ok ((if (utf16 t).take limit = [] then utf16 "Non disponible"
            else (utf16 t).take limit) ++
        (if (utf16 t).length > limit then utf16 "..." else [])) := rfl

/-- C19: in the summary built by `generateContent`, the marketing text follows its heading
as its first 500 code units followed by `...` when its length exceeds 500, and whole,
with nothing appended, when its length is between 1 and 500; the video script likewise
with the limit 300; a missing, `null` or empty text is shown as `Non disponible`. -/
theorem formattedContent_excerpts {ν : Type} (H : Host ν) :
    (∀ (kvs : List (String × Json ν)) (out : List Nat),
      formattedContent H (some (.obj kvs)) = .ok out →
      ∃ head tail marketing script,
        out = head ++ utf16 "\n\n📝 Texte marketing:\n" ++ marketing ++
          utf16 "\n\n🎥 Script vidéo:\n" ++ script ++ tail ∧
        excerpt H 500 (kvs.lookup "texte_marketing") = .ok marketing ∧
        excerpt H 300 (kvs.lookup "script_video") = .ok script) ∧
    (∀ (limit : Nat) (t : String), 0 < limit →
      ((utf16 t).length > limit →
        excerpt H limit (some (.str t)) = .ok ((utf16 t).take limit ++ utf16 "...")) ∧
      (1 ≤ (utf16 t).length → (utf16 t).length ≤ limit →
        excerpt H limit (some (.str t)) = .ok (utf16 t)) ∧
      ((utf16 t).length = 0 →
        excerpt H limit (some (.str t)) = .ok (utf16 "Non disponible"))) ∧
    (∀ limit : Nat,
      excerpt H limit none = .ok (utf16 "Non disponible") ∧
      excerpt H limit (some .null) = .ok (utf16 "Non disponible")) := by
  refine ⟨fun kvs out h => ?_, fun limit t hl => ⟨fun hgt => ?_, fun h1 hle => ?_,
    fun h0 => ?_⟩, fun limit => ⟨rfl, rfl⟩⟩
  · simp only [formattedContent, Option.getD_some, Json.get] at h
    split at h
    · exact absurd h (by simp)
    split at h
    · exact absurd h (by simp)
    split at h
    · exact absurd h (by simp)
    split at h
    · exact absurd h (by simp)
    split at h
    · exact absurd h (by simp)
    split at h
    · exact absurd h (by simp)
    split at h
    · exact absurd h (by simp)
    split at h
    · exact absurd h (by simp)
    split at h
    · exact absurd h (by simp)
    rename_i _ marketing hm _ script hs _ _ _
    simp only [Except.ok.injEq] at h
    subst h
    unfold summaryMarkup
    exact ⟨_, _, marketing, script, rfl, hm, hs⟩
  · rw [excerpt_text]
    have hne : (utf16 t).take limit ≠ [] := by
      intro hnil
      have := congrArg List.length hnil
      simp only [List.length_take, List.length_nil] at this
      omega
    simp [hne, hgt]
  · rw [excerpt_text]
    have htake : (utf16 t).take limit = utf16 t := List.take_of_length_le hle
    have hne : utf16 t ≠ [] := by
      intro hnil
      rw [hnil] at h1
      simp at h1
    have hng : ¬ ((utf16 t).length > limit) := by omega
    simp [htake, hne, hng]
  · rw [excerpt_text]
    have hnil : utf16 t = [] := List.eq_nil_of_length_eq_zero h0
    simp [hnil]

set_option maxRecDepth 100000 in
/-- Witness for C19: a marketing text of 501 letters is cut to 500 and followed by `...`;
a script of 7 letters is shown whole. -/
theorem formattedContent_excerpts_witness :
    excerpt (sampleHost sampleNet) 500 (some (.str (String.mk (List.replicate 501 'a'))))
      = .ok (List.replicate 500 97 ++ utf16 "...") ∧
    excerpt (sampleHost sampleNet) 300 (some (.str "Bonjour")) = .ok (utf16 "Bonjour") :=
  ⟨((formattedContent_excerpts (sampleHost sampleNet)).2.1 500
      (String.mk (List.replicate 501 'a')) (by decide)).1 (by decide),
   ((formattedContent_excerpts (sampleHost sampleNet)).2.1 300 "Bonjour" (by decide)).2.1
      (by decide) (by decide)⟩

end AgentIA
